import Mathlib

/-
  Verification of the MCUSim AVR core against its specification.

  The definitions below are a shallow embedding of the C sources:
  * src/avr/avr_decoder.c  (instruction decoder and executors)
  * src/avr/avr_m328p.c    (ATmega328P Timer/Counter0 tick)

  Machine integers are modelled as Nat with explicit reductions modulo
  2^8 / 2^16 / 2^32 / 2^64 where the C types (unsigned char, unsigned
  short, unsigned int, unsigned long) truncate.  Signed C int values are
  modelled as Int, and their 32-bit two's-complement representation
  (used by the C bitwise flag formulas) is recovered with i32.
-/

namespace MCUSim

/-- Run states of a simulated AVR MCU, from enum MSIM_AVR_State in sim.h. -/
inductive MSIM_AVR_State where
  | AVR_RUNNING
  | AVR_STOPPED
  | AVR_SLEEPING
  | AVR_MSIM_STEP
  | AVR_MSIM_STOP
  | AVR_MSIM_TESTFAIL
deriving DecidableEq, Repr

open MSIM_AVR_State

/-- Instance of the AVR microcontroller, the fields of struct MSIM_AVR
(sim.h) that the decoder and the timer touch.  Byte arrays (dm, pm, pmp,
mpm) are total functions from addresses to stored bytes; the byte-pointer
fields sreg / sph / spl are modelled as the addresses they point at inside
dm, and the optional device registers eind / rampz / spmcsr as optional
addresses (none is a NULL pointer). -/
structure Mcu where
  pc : Nat
  pc_bits : Nat
  xmega : Bool
  reduced_core : Bool
  ramstart : Nat
  ramend : Nat
  dm : Nat → Nat
  pm : Nat → Nat
  pmp : Nat → Nat
  mpm : Nat → Nat
  sregAddr : Nat
  sphAddr : Nat
  splAddr : Nat
  sfr_off : Nat
  eind : Option Nat
  rampz : Option Nat
  spmcsr : Option Nat
  spm_pagesize : Nat
  in_mcinst : Bool
  ic_left : Nat
  read_from_mpm : Bool
  state : MSIM_AVR_State
  exec_main : Bool

/-- Read one byte of data memory (unsigned char load from mcu->dm). -/
def dm8 (m : Mcu) (a : Nat) : Nat := m.dm a % 256

/-- Read one byte of program memory (unsigned char load from mcu->pm). -/
def pm8 (m : Mcu) (a : Nat) : Nat := m.pm a % 256

/-- Read one byte of the match-point memory (mcu->mpm). -/
def mpm8 (m : Mcu) (a : Nat) : Nat := m.mpm a % 256

/-- Store one byte into a byte array: the array cell can only hold the
value reduced modulo 256, as the C unsigned char array does. -/
def wr8 (f : Nat → Nat) (a v : Nat) : Nat → Nat :=
  fun x => if x = a then v % 256 else f x

/-- 32-bit one's complement (C operator on unsigned int); every argument
supplied in this development is below 2 to the 32, where xor with the
all-ones word is exactly the complement. -/
def nc32 (x : Nat) : Nat := 0xFFFFFFFF ^^^ x

/-- Truncation to unsigned int width. -/
def u32 (x : Nat) : Nat := x % 4294967296

/-- 32-bit two's-complement representation of a signed C int. -/
def i32 (x : Int) : Nat := (x.emod 4294967296).toNat

/-- The value of a signed char read from a byte. -/
def sgn8 (x : Nat) : Int := if 128 ≤ x % 256 then (x % 256 : Int) - 256 else (x % 256 : Int)

/-- Unsigned long (64-bit) program-counter arithmetic:
pc = (unsigned long)((long)pc + delta). -/
def pcAdd (pc : Nat) (d : Int) : Nat :=
  (((pc : Int) + d).emod 18446744073709551616).toNat

/-- Bit numbers of the SREG flags, from enum MSIM_AVR_SREGFlag (sim.h). -/
def AVR_SREG_CARRY : Nat := 0

/-- SREG zero flag bit number. -/
def AVR_SREG_ZERO : Nat := 1

/-- SREG negative flag bit number. -/
def AVR_SREG_NEGATIVE : Nat := 2

/-- SREG two's-complement overflow flag bit number. -/
def AVR_SREG_TWOSCOM_OF : Nat := 3

/-- SREG sign flag bit number. -/
def AVR_SREG_SIGN : Nat := 4

/-- SREG half-carry flag bit number. -/
def AVR_SREG_HALF_CARRY : Nat := 5

/-- SREG bit-copy flag bit number. -/
def AVR_SREG_T_BIT : Nat := 6

/-- SREG global-interrupt flag bit number. -/
def AVR_SREG_GLOB_INT : Nat := 7

/-- Modelled from the spec: the Flag Engine read accessor
(MSIM_AVR_ReadSREGFlag, whose definition is not under src/).  Per the
spec, SREG is a distinguished I/O byte whose bits carry the eight status
flags; reading a flag extracts the corresponding bit of the SREG byte
that mcu->sreg points at. -/
def MSIM_AVR_ReadSREGFlag (m : Mcu) (flag : Nat) : Nat :=
  (dm8 m m.sregAddr >>> flag) &&& 1

/-- Modelled from the spec: the Flag Engine write accessor
(MSIM_AVR_UpdateSREGFlag, whose definition is not under src/): a nonzero
value sets the flag bit in the SREG byte, zero clears it. -/
def MSIM_AVR_UpdateSREGFlag (m : Mcu) (flag val : Nat) : Mcu :=
  let s := dm8 m m.sregAddr
  let s := if val ≠ 0 then s ||| (1 <<< flag) else s &&& (0xFF ^^^ (1 <<< flag))
  { m with dm := wr8 m.dm m.sregAddr s }

/-- Modelled from the spec (section 4.4, Stack Access Primitive; the
definition of MSIM_AVR_StackPush is not under src/): push(b) writes b to
dm[SP] and decrements SP, where SP is the 16-bit pair SPH:SPL in I/O
space. -/
def MSIM_AVR_StackPush (m : Mcu) (v : Nat) : Mcu :=
  let sp := dm8 m m.splAddr ||| (dm8 m m.sphAddr <<< 8)
  let dm := wr8 m.dm sp v
  let sp := (sp + 65535) % 65536
  let dm := wr8 dm m.splAddr (sp &&& 0xFF)
  let dm := wr8 dm m.sphAddr (sp >>> 8)
  { m with dm := dm }

/-- Modelled from the spec (section 4.4, Stack Access Primitive; the
definition of MSIM_AVR_StackPop is not under src/): pop() increments SP
and returns dm[SP]. -/
def MSIM_AVR_StackPop (m : Mcu) : Nat × Mcu :=
  let sp := dm8 m m.splAddr ||| (dm8 m m.sphAddr <<< 8)
  let sp := (sp + 1) % 65536
  let dm := wr8 m.dm m.splAddr (sp &&& 0xFF)
  let dm := wr8 dm m.sphAddr (sp >>> 8)
  let m := { m with dm := dm }
  (dm8 m sp, m)

/-- The SKIP_CYCLES macro of avr_decoder.c (lines 51-65): bookkeeping of
multi-cycle instructions.  On the first cycle of a multi-cycle
instruction (cond holds, not yet in one) it latches in_mcinst / ic_left
and returns; on intermediate cycles it decrements ic_left and returns;
on the final cycle it clears in_mcinst and falls through into the body
of the opcode executor. -/
def SKIP_CYCLES (m : Mcu) (cond : Bool) (cycl : Nat) (body : Mcu → Mcu) : Mcu :=
  if !m.in_mcinst && cond then
    { m with in_mcinst := true, ic_left := cycl }
  else if m.in_mcinst && m.ic_left != 0 then
    if m.ic_left - 1 != 0 then
      { m with ic_left := m.ic_left - 1 }
    else
      body { m with ic_left := m.ic_left - 1, in_mcinst := false }
  else
    body { m with in_mcinst := false }

/-- MSIM_AVR_Is32 (avr_decoder.c lines 223-232): an instruction word
opens a 32-bit instruction iff masked with 0xFC0F it is one of
STS / LDS / JMP / CALL. -/
def MSIM_AVR_Is32 (inst : Nat) : Bool :=
  let i := inst &&& 0xfc0f
  i == 0x9200 || i == 0x9000 || i == 0x940c || i == 0x940d ||
  i == 0x940e || i == 0x940f

/-- Address of ZH, from avr_decoder.c. -/
def REG_ZH : Nat := 0x1F

/-- Address of ZL, from avr_decoder.c. -/
def REG_ZL : Nat := 0x1E

/-- exec_eor_clr (avr_decoder.c): EOR - Exclusive OR. -/
def exec_eor_clr (m : Mcu) (inst : Nat) : Mcu :=
  let rd := (inst &&& 0x01F0) >>> 4
  let rr := (inst &&& 0x0F) ||| ((inst &&& 0x0200) >>> 5)
  let m := { m with dm := wr8 m.dm rd (dm8 m rd ^^^ dm8 m rr), pc := m.pc + 2 }
  let m := MSIM_AVR_UpdateSREGFlag m AVR_SREG_ZERO (if dm8 m rd = 0 then 1 else 0)
  let m := MSIM_AVR_UpdateSREGFlag m AVR_SREG_NEGATIVE (dm8 m rd &&& 0x80)
  let m := MSIM_AVR_UpdateSREGFlag m AVR_SREG_TWOSCOM_OF 0
  MSIM_AVR_UpdateSREGFlag m AVR_SREG_SIGN ((dm8 m rd &&& 0x80) ^^^ 0)

/-- exec_in_out (avr_decoder.c): IN / OUT. -/
def exec_in_out (m : Mcu) (inst reg io_loc : Nat) : Mcu :=
  let m :=
    if inst &&& 0xF800 = 0xB000 then
      { m with dm := wr8 m.dm reg (dm8 m (io_loc + m.sfr_off)) }
    else if inst &&& 0xF800 = 0xB800 then
      { m with dm := wr8 m.dm (io_loc + m.sfr_off) (dm8 m reg) }
    else m
  { m with pc := m.pc + 2 }

/-- exec_cpi (avr_decoder.c): CPI - Compare with Immediate. -/
def exec_cpi (m : Mcu) (inst : Nat) : Mcu :=
  let rd_addr := ((inst &&& 0xF0) >>> 4) + 16
  let c := (inst &&& 0x0F) ||| ((inst &&& 0x0F00) >>> 4)
  let rd := dm8 m rd_addr
  let r : Int := (rd : Int) - (c : Int)
  let buf := (nc32 rd &&& c) ||| (c &&& i32 r) ||| (i32 r &&& nc32 rd)
  let m := { m with pc := m.pc + 2 }
  let m := MSIM_AVR_UpdateSREGFlag m AVR_SREG_CARRY ((buf >>> 7) &&& 0x01)
  let m := MSIM_AVR_UpdateSREGFlag m AVR_SREG_NEGATIVE ((i32 r >>> 7) &&& 1)
  let m := MSIM_AVR_UpdateSREGFlag m AVR_SREG_TWOSCOM_OF
    ((((rd &&& nc32 c &&& nc32 (i32 r)) ||| (nc32 rd &&& c &&& i32 r)) >>> 7) &&& 1)
  let m := MSIM_AVR_UpdateSREGFlag m AVR_SREG_SIGN
    (MSIM_AVR_ReadSREGFlag m AVR_SREG_NEGATIVE ^^^
     MSIM_AVR_ReadSREGFlag m AVR_SREG_TWOSCOM_OF)
  let m := MSIM_AVR_UpdateSREGFlag m AVR_SREG_HALF_CARRY ((buf >>> 3) &&& 1)
  MSIM_AVR_UpdateSREGFlag m AVR_SREG_ZERO (if r = 0 then 1 else 0)

/-- exec_cpc (avr_decoder.c lines 775-805): CPC - Compare with Carry.
The intermediate result r is a signed C int, and the zero flag is only
ever cleared, guarded by the test on that exact int value. -/
def exec_cpc (m : Mcu) (inst : Nat) : Mcu :=
  let rd_addr := (inst &&& 0x01F0) >>> 4
  let rr_addr := (inst &&& 0x0F) ||| ((inst &&& 0x0200) >>> 5)
  let rd := dm8 m rd_addr
  let rr := dm8 m rr_addr
  let r : Int := (rd : Int) - (rr : Int) - (MSIM_AVR_ReadSREGFlag m AVR_SREG_CARRY : Int)
  let m := { m with pc := m.pc + 2 }
  let buf := (nc32 rd &&& rr) ||| (rr &&& i32 r) ||| (i32 r &&& nc32 rd)
  let m := MSIM_AVR_UpdateSREGFlag m AVR_SREG_CARRY ((buf >>> 7) &&& 1)
  let m := MSIM_AVR_UpdateSREGFlag m AVR_SREG_HALF_CARRY ((buf >>> 3) &&& 1)
  let m := MSIM_AVR_UpdateSREGFlag m AVR_SREG_NEGATIVE ((i32 r >>> 7) &&& 1)
  let m := MSIM_AVR_UpdateSREGFlag m AVR_SREG_TWOSCOM_OF
    ((((rd &&& nc32 rr &&& nc32 (i32 r)) ||| (nc32 rd &&& rr &&& i32 r)) >>> 7) &&& 1)
  let m := MSIM_AVR_UpdateSREGFlag m AVR_SREG_SIGN
    (MSIM_AVR_ReadSREGFlag m AVR_SREG_NEGATIVE ^^^
     MSIM_AVR_ReadSREGFlag m AVR_SREG_TWOSCOM_OF)
  if r ≠ 0 then MSIM_AVR_UpdateSREGFlag m AVR_SREG_ZERO 0 else m

/-- exec_cp (avr_decoder.c): CP - Compare. -/
def exec_cp (m : Mcu) (inst : Nat) : Mcu :=
  let rd_addr := (inst &&& 0x01F0) >>> 4
  let rr_addr := (inst &&& 0x0F) ||| ((inst &&& 0x0200) >>> 5)
  let rd := dm8 m rd_addr
  let rr := dm8 m rr_addr
  let r : Int := (rd : Int) - (rr : Int)
  let m := { m with pc := m.pc + 2 }
  let buf := (nc32 rd &&& rr) ||| (rr &&& i32 r) ||| (i32 r &&& nc32 rd)
  let m := MSIM_AVR_UpdateSREGFlag m AVR_SREG_CARRY ((buf >>> 7) &&& 1)
  let m := MSIM_AVR_UpdateSREGFlag m AVR_SREG_HALF_CARRY ((buf >>> 3) &&& 1)
  let m := MSIM_AVR_UpdateSREGFlag m AVR_SREG_NEGATIVE ((i32 r >>> 7) &&& 1)
  let m := MSIM_AVR_UpdateSREGFlag m AVR_SREG_TWOSCOM_OF
    ((((rd &&& nc32 rr &&& nc32 (i32 r)) ||| (nc32 rd &&& rr &&& i32 r)) >>> 7) &&& 1)
  let m := MSIM_AVR_UpdateSREGFlag m AVR_SREG_SIGN
    (MSIM_AVR_ReadSREGFlag m AVR_SREG_NEGATIVE ^^^
     MSIM_AVR_ReadSREGFlag m AVR_SREG_TWOSCOM_OF)
  MSIM_AVR_UpdateSREGFlag m AVR_SREG_ZERO (if r = 0 then 1 else 0)

/-- exec_ldi (avr_decoder.c): LDI - Load Immediate. -/
def exec_ldi (m : Mcu) (inst : Nat) : Mcu :=
  let rd_off := (inst &&& 0xF0) >>> 4
  let c := (inst &&& 0x0F) ||| ((inst &&& 0x0F00) >>> 4)
  { m with dm := wr8 m.dm (0x10 + rd_off) c, pc := m.pc + 2 }

/-- exec_rjmp (avr_decoder.c): RJMP - Relative Jump. -/
def exec_rjmp (m : Mcu) (inst : Nat) : Mcu :=
  SKIP_CYCLES m true 1 (fun m =>
    let c : Int :=
      if 2048 ≤ inst &&& 0x0FFF then ((inst &&& 0x0FFF : Nat) : Int) - 4096
      else ((inst &&& 0x0FFF : Nat) : Int)
    { m with pc := pcAdd m.pc ((c + 1) * 2) })

/-- exec_brne (avr_decoder.c): BRNE - Branch if Not Equal. -/
def exec_brne (m : Mcu) (inst : Nat) : Mcu :=
  let cond := MSIM_AVR_ReadSREGFlag m AVR_SREG_ZERO
  SKIP_CYCLES m (cond == 0) 1 (fun m =>
    if cond = 0 then
      let c := u32 (inst <<< 6) >>> 9
      { m with pc := pcAdd m.pc (((c : Int) + 1) * 2) }
    else
      { m with pc := m.pc + 2 })

/-- exec_st (avr_decoder.c): ST - Store Indirect using index X, Y or Z;
the addr_low and addr_high pointer arguments are the dm addresses of the
index pair (the regr parameter is recomputed as r inside, as in the C). -/
def exec_st (m : Mcu) (inst addr_low addr_high regr : Nat) : Mcu :=
  let addr := dm8 m addr_low ||| (dm8 m addr_high <<< 8)
  let r := (inst &&& 0x01F0) >>> 4
  match inst &&& 0x03 with
  | 0x00 =>
    let body := fun (m : Mcu) =>
      { m with dm := wr8 m.dm addr (dm8 m r), pc := m.pc + 2 }
    if !m.xmega && !m.reduced_core then SKIP_CYCLES m true 1 body else body m
  | 0x01 =>
    let body := fun (m : Mcu) =>
      let m := { m with dm := wr8 m.dm addr (dm8 m r) }
      let addr := u32 (addr + 1)
      let m := { m with dm := wr8 m.dm addr_low (addr &&& 0xFF) }
      let m := { m with dm := wr8 m.dm addr_high (addr >>> 8) }
      { m with pc := m.pc + 2 }
    if !m.xmega && !m.reduced_core then SKIP_CYCLES m true 1 body else body m
  | 0x02 =>
    SKIP_CYCLES m true 1 (fun m =>
      let addr := u32 (addr + 4294967295)
      let m := { m with dm := wr8 m.dm addr_low (addr &&& 0xFF) }
      let m := { m with dm := wr8 m.dm addr_high (addr >>> 8) }
      { m with dm := wr8 m.dm addr (dm8 m r), pc := m.pc + 2 })
  | _ => { m with pc := m.pc + 2 }

/-- exec_st_x (avr_decoder.c). -/
def exec_st_x (m : Mcu) (inst : Nat) : Mcu :=
  exec_st m inst 26 27 ((inst &&& 0x01F0) >>> 4)

/-- exec_st_y (avr_decoder.c). -/
def exec_st_y (m : Mcu) (inst : Nat) : Mcu :=
  exec_st m inst 28 29 ((inst &&& 0x01F0) >>> 4)

/-- exec_st_z (avr_decoder.c). -/
def exec_st_z (m : Mcu) (inst : Nat) : Mcu :=
  exec_st m inst 30 31 ((inst &&& 0x01F0) >>> 4)

/-- exec_st_ydisp (avr_decoder.c): ST (STD) through Y with displacement. -/
def exec_st_ydisp (m : Mcu) (inst : Nat) : Mcu :=
  SKIP_CYCLES m true 1 (fun m =>
    let addr := dm8 m 28 ||| (dm8 m 29 <<< 8)
    let regr := (inst &&& 0x01F0) >>> 4
    let disp := (inst &&& 0x07) ||| ((inst &&& 0x0C00) >>> 7) ||| ((inst &&& 0x2000) >>> 8)
    { m with dm := wr8 m.dm (addr + disp) (dm8 m regr), pc := m.pc + 2 })

/-- exec_st_zdisp (avr_decoder.c): ST (STD) through Z with displacement. -/
def exec_st_zdisp (m : Mcu) (inst : Nat) : Mcu :=
  SKIP_CYCLES m true 1 (fun m =>
    let addr := dm8 m 30 ||| (dm8 m 31 <<< 8)
    let regr := (inst &&& 0x01F0) >>> 4
    let disp := (inst &&& 0x07) ||| ((inst &&& 0x0C00) >>> 7) ||| ((inst &&& 0x2000) >>> 8)
    { m with dm := wr8 m.dm (addr + disp) (dm8 m regr), pc := m.pc + 2 })

/-- exec_rcall (avr_decoder.c): RCALL - Relative Call to Subroutine. -/
def exec_rcall (m : Mcu) (inst : Nat) : Mcu :=
  let body := fun (m : Mcu) =>
    let pc2 := m.pc + 2
    let c : Int :=
      if 2048 ≤ inst &&& 0x0FFF then ((inst &&& 0x0FFF : Nat) : Int) - 4096
      else ((inst &&& 0x0FFF : Nat) : Int)
    let m := MSIM_AVR_StackPush m (pc2 &&& 0xFF)
    let m := MSIM_AVR_StackPush m ((pc2 >>> 8) &&& 0xFF)
    let m := if 16 < m.pc_bits then MSIM_AVR_StackPush m ((pc2 >>> 16) &&& 0xFF) else m
    { m with pc := pcAdd m.pc ((c + 1) * 2) }
  if !m.reduced_core && m.xmega then
    SKIP_CYCLES m true (if 16 < m.pc_bits then 2 else 1) body
  else if !m.reduced_core && !m.xmega then
    SKIP_CYCLES m true (if 16 < m.pc_bits then 3 else 2) body
  else
    SKIP_CYCLES m true 3 body

/-- exec_sts (avr_decoder.c): STS - Store Direct to Data Space. -/
def exec_sts (m : Mcu) (inst : Nat) : Mcu :=
  SKIP_CYCLES m true 1 (fun m =>
    let addr_lsb := pm8 m (m.pc + 2)
    let addr_msb := pm8 m (m.pc + 3)
    let addr := addr_lsb ||| (addr_msb <<< 8)
    let rr := (inst &&& 0x01F0) >>> 4
    { m with dm := wr8 m.dm addr (dm8 m rr), pc := m.pc + 4 })

/-- exec_ret (avr_decoder.c): RET - Return from Subroutine. -/
def exec_ret (m : Mcu) : Mcu :=
  SKIP_CYCLES m true (if 16 < m.pc_bits then 4 else 3) (fun m =>
    let (ae, m) := if 16 < m.pc_bits then MSIM_AVR_StackPop m else (0, m)
    let (ah, m) := MSIM_AVR_StackPop m
    let (al, m) := MSIM_AVR_StackPop m
    { m with pc := (ae <<< 16) ||| (ah <<< 8) ||| al })

/-- exec_ori_sbr (avr_decoder.c): ORI / SBR. -/
def exec_ori_sbr (m : Mcu) (inst : Nat) : Mcu :=
  let rd_addr := ((inst &&& 0xF0) >>> 4) + 16
  let c := (inst &&& 0x0F) ||| ((inst &&& 0x0F00) >>> 4)
  let r := dm8 m rd_addr ||| c
  let m := { m with dm := wr8 m.dm rd_addr r, pc := m.pc + 2 }
  let m := MSIM_AVR_UpdateSREGFlag m AVR_SREG_NEGATIVE ((r >>> 7) &&& 1)
  let m := MSIM_AVR_UpdateSREGFlag m AVR_SREG_TWOSCOM_OF 0
  let m := MSIM_AVR_UpdateSREGFlag m AVR_SREG_SIGN
    (MSIM_AVR_ReadSREGFlag m AVR_SREG_NEGATIVE ^^^
     MSIM_AVR_ReadSREGFlag m AVR_SREG_TWOSCOM_OF)
  MSIM_AVR_UpdateSREGFlag m AVR_SREG_ZERO (if r = 0 then 1 else 0)

/-- exec_sbi_cbi (avr_decoder.c): SBI / CBI. -/
def exec_sbi_cbi (m : Mcu) (inst : Nat) (set_bit : Bool) : Mcu :=
  let body := fun (m : Mcu) =>
    let reg := (inst &&& 0x00F8) >>> 3
    let b := inst &&& 0x07
    let m :=
      if set_bit then
        { m with dm := wr8 m.dm (reg + 0x20) (dm8 m (reg + 0x20) ||| (1 <<< b)) }
      else
        { m with dm := wr8 m.dm (reg + 0x20) (dm8 m (reg + 0x20) &&& (0xFF ^^^ (1 <<< b))) }
    { m with pc := m.pc + 2 }
  if !m.reduced_core && !m.xmega then SKIP_CYCLES m true 1 body else body m

/-- exec_sbis_sbic (avr_decoder.c): SBIS / SBIC; the next instruction
word is assembled from the two bytes at PC+2 and PC+3 before asking
MSIM_AVR_Is32 how far to skip. -/
def exec_sbis_sbic (m : Mcu) (inst : Nat) (set_bit : Bool) : Mcu :=
  let reg := ((inst &&& 0x00F8) >>> 3) + 0x20
  let b := inst &&& 0x07
  let lsb := pm8 m (m.pc + 2)
  let msb := pm8 m (m.pc + 3)
  let ni := lsb ||| (msb <<< 8)
  let is32 := MSIM_AVR_Is32 ni
  if set_bit ∧ dm8 m reg &&& (1 <<< b) ≠ 0 then
    let body := fun (m : Mcu) => { m with pc := m.pc + (if is32 then 6 else 4) }
    if m.xmega then SKIP_CYCLES m true (if is32 then 3 else 2) body
    else SKIP_CYCLES m true (if is32 then 2 else 1) body
  else if (¬set_bit) ∧ dm8 m reg ^^^ (1 <<< b) ≠ 0 then
    let body := fun (m : Mcu) => { m with pc := m.pc + (if is32 then 6 else 4) }
    if m.xmega then SKIP_CYCLES m true (if is32 then 3 else 2) body
    else SKIP_CYCLES m true (if is32 then 2 else 1) body
  else
    let body := fun (m : Mcu) => { m with pc := m.pc + 2 }
    if m.xmega then SKIP_CYCLES m true 1 body else body m

/-- exec_push_pop (avr_decoder.c): PUSH / POP. -/
def exec_push_pop (m : Mcu) (inst : Nat) (push : Bool) : Mcu :=
  let reg := (inst >>> 4) &&& 0x1F
  if push then
    let body := fun (m : Mcu) =>
      let m := MSIM_AVR_StackPush m (dm8 m reg)
      { m with pc := m.pc + 2 }
    if !m.xmega then SKIP_CYCLES m true 1 body else body m
  else
    SKIP_CYCLES m true 1 (fun m =>
      let (v, m) := MSIM_AVR_StackPop m
      let m := { m with dm := wr8 m.dm reg v }
      { m with pc := m.pc + 2 })

/-- exec_movw (avr_decoder.c lines 1158-1168): MOVW - Copy Register
Word; copies the pair Rr+1:Rr into Rd+1:Rd and advances PC by 2 without
touching SREG. -/
def exec_movw (m : Mcu) (inst : Nat) : Mcu :=
  let regr := (inst &&& 0x0F) <<< 1
  let regd := ((inst >>> 4) &&& 0x0F) <<< 1
  let m := { m with dm := wr8 m.dm (regd + 1) (dm8 m (regr + 1)) }
  let m := { m with dm := wr8 m.dm regd (dm8 m regr) }
  { m with pc := m.pc + 2 }

/-- exec_mov (avr_decoder.c): MOV - Copy register. -/
def exec_mov (m : Mcu) (inst : Nat) : Mcu :=
  let rr := ((inst &&& 0x200) >>> 5) ||| (inst &&& 0x0F)
  let rd := (inst &&& 0x1F0) >>> 4
  { m with dm := wr8 m.dm rd (dm8 m rr), pc := m.pc + 2 }

/-- exec_ld (avr_decoder.c): LD - Load Indirect using index X, Y or Z;
addr_low and addr_high are the dm addresses of the index pair. -/
def exec_ld (m : Mcu) (inst addr_low addr_high regd : Nat) : Mcu :=
  let addr := dm8 m addr_low ||| (dm8 m addr_high <<< 8)
  match inst &&& 0x03 with
  | 0x00 =>
    let body := fun (m : Mcu) =>
      { m with dm := wr8 m.dm regd (dm8 m addr), pc := m.pc + 2 }
    if m.xmega ∧ addr ≤ m.ramend ∧ m.ramstart ≤ addr then SKIP_CYCLES m true 1 body
    else body m
  | 0x01 =>
    let body := fun (m : Mcu) =>
      let m := { m with dm := wr8 m.dm regd (dm8 m addr) }
      let addr := u32 (addr + 1)
      let m := { m with dm := wr8 m.dm addr_low (addr &&& 0xFF) }
      let m := { m with dm := wr8 m.dm addr_high (addr >>> 8) }
      { m with pc := m.pc + 2 }
    if !m.xmega then SKIP_CYCLES m true 1 body
    else if addr ≤ m.ramend ∧ m.ramstart ≤ addr then SKIP_CYCLES m true 1 body
    else body m
  | 0x02 =>
    let body := fun (m : Mcu) =>
      let addr := u32 (addr + 4294967295)
      let m := { m with dm := wr8 m.dm addr_low (addr &&& 0xFF) }
      let m := { m with dm := wr8 m.dm addr_high (addr >>> 8) }
      { m with dm := wr8 m.dm regd (dm8 m addr), pc := m.pc + 2 }
    if !m.xmega then SKIP_CYCLES m true 2 body
    else if addr ≤ m.ramend ∧ m.ramstart ≤ addr then SKIP_CYCLES m true 2 body
    else if m.ramend < addr ∧ addr < m.ramstart then SKIP_CYCLES m true 1 body
    else body m
  | _ => { m with pc := m.pc + 2 }

/-- exec_ld_x (avr_decoder.c). -/
def exec_ld_x (m : Mcu) (inst : Nat) : Mcu :=
  exec_ld m inst 26 27 ((inst &&& 0x01F0) >>> 4)

/-- exec_ld_y (avr_decoder.c). -/
def exec_ld_y (m : Mcu) (inst : Nat) : Mcu :=
  exec_ld m inst 28 29 ((inst &&& 0x01F0) >>> 4)

/-- exec_ld_z (avr_decoder.c). -/
def exec_ld_z (m : Mcu) (inst : Nat) : Mcu :=
  exec_ld m inst 30 31 ((inst &&& 0x01F0) >>> 4)

/-- exec_ld_ydisp (avr_decoder.c): LDD through Y. -/
def exec_ld_ydisp (m : Mcu) (inst : Nat) : Mcu :=
  let addr := dm8 m 28 ||| (dm8 m 29 <<< 8)
  let body := fun (m : Mcu) =>
    let regd := (inst &&& 0x01F0) >>> 4
    let disp := (inst &&& 0x07) ||| ((inst &&& 0x0C00) >>> 7) ||| ((inst &&& 0x2000) >>> 8)
    { m with dm := wr8 m.dm regd (dm8 m (addr + disp)), pc := m.pc + 2 }
  if !m.xmega then SKIP_CYCLES m true 1 body
  else if addr ≤ m.ramend ∧ m.ramstart ≤ addr then SKIP_CYCLES m true 2 body
  else if m.ramend < addr ∧ addr < m.ramstart then SKIP_CYCLES m true 1 body
  else body m

/-- exec_ld_zdisp (avr_decoder.c): LDD through Z. -/
def exec_ld_zdisp (m : Mcu) (inst : Nat) : Mcu :=
  let addr := dm8 m 30 ||| (dm8 m 31 <<< 8)
  let body := fun (m : Mcu) =>
    let regd := (inst &&& 0x01F0) >>> 4
    let disp := (inst &&& 0x07) ||| ((inst &&& 0x0C00) >>> 7) ||| ((inst &&& 0x2000) >>> 8)
    { m with dm := wr8 m.dm regd (dm8 m (addr + disp)), pc := m.pc + 2 }
  if !m.xmega then SKIP_CYCLES m true 1 body
  else if addr ≤ m.ramend ∧ m.ramstart ≤ addr then SKIP_CYCLES m true 2 body
  else if m.ramend < addr ∧ addr < m.ramstart then SKIP_CYCLES m true 1 body
  else body m

/-- exec_sbci (avr_decoder.c): SBCI - Subtract Immediate with Carry;
the result r is an unsigned char, and Z follows the ordinary rule here
(it is CPC and SBC that only clear it). -/
def exec_sbci (m : Mcu) (inst : Nat) : Mcu :=
  let rd_addr := ((inst &&& 0xF0) >>> 4) + 16
  let c := ((inst &&& 0xF00) >>> 4) ||| (inst &&& 0x0F)
  let rd := dm8 m rd_addr
  let r := (rd + 512 - c - MSIM_AVR_ReadSREGFlag m AVR_SREG_CARRY) % 256
  let m := { m with dm := wr8 m.dm rd_addr r, pc := m.pc + 2 }
  let buf := (nc32 rd &&& c) ||| (c &&& r) ||| (r &&& nc32 rd)
  let m := MSIM_AVR_UpdateSREGFlag m AVR_SREG_CARRY ((buf >>> 7) &&& 1)
  let m := MSIM_AVR_UpdateSREGFlag m AVR_SREG_HALF_CARRY ((buf >>> 3) &&& 1)
  let m := MSIM_AVR_UpdateSREGFlag m AVR_SREG_NEGATIVE ((r >>> 7) &&& 1)
  let m := MSIM_AVR_UpdateSREGFlag m AVR_SREG_TWOSCOM_OF
    ((((rd &&& nc32 c &&& nc32 r) ||| (nc32 rd &&& c &&& r)) >>> 7) &&& 1)
  let m := MSIM_AVR_UpdateSREGFlag m AVR_SREG_SIGN
    (MSIM_AVR_ReadSREGFlag m AVR_SREG_NEGATIVE ^^^
     MSIM_AVR_ReadSREGFlag m AVR_SREG_TWOSCOM_OF)
  MSIM_AVR_UpdateSREGFlag m AVR_SREG_ZERO (if r = 0 then 1 else 0)

/-- exec_brlt (avr_decoder.c): BRLT. -/
def exec_brlt (m : Mcu) (inst : Nat) : Mcu :=
  let cond := MSIM_AVR_ReadSREGFlag m AVR_SREG_NEGATIVE ^^^
              MSIM_AVR_ReadSREGFlag m AVR_SREG_TWOSCOM_OF
  let c : Int :=
    if 63 < (inst >>> 3) &&& 0x7F then (((inst >>> 3) &&& 0x7F : Nat) : Int) - 128
    else (((inst >>> 3) &&& 0x7F : Nat) : Int)
  SKIP_CYCLES m (cond != 0) 1 (fun m =>
    if cond ≠ 0 then { m with pc := pcAdd m.pc ((c + 1) * 2) }
    else { m with pc := m.pc + 2 })

/-- exec_brge (avr_decoder.c): BRGE. -/
def exec_brge (m : Mcu) (inst : Nat) : Mcu :=
  let cond := MSIM_AVR_ReadSREGFlag m AVR_SREG_NEGATIVE ^^^
              MSIM_AVR_ReadSREGFlag m AVR_SREG_TWOSCOM_OF
  let c : Int :=
    if 63 < (inst >>> 3) &&& 0x7F then (((inst >>> 3) &&& 0x7F : Nat) : Int) - 128
    else (((inst >>> 3) &&& 0x7F : Nat) : Int)
  SKIP_CYCLES m (cond == 0) 1 (fun m =>
    if cond = 0 then { m with pc := pcAdd m.pc ((c + 1) * 2) }
    else { m with pc := m.pc + 2 })

/-- exec_andi_cbr (avr_decoder.c): ANDI - Logical AND with Immediate. -/
def exec_andi_cbr (m : Mcu) (inst : Nat) : Mcu :=
  let rd_addr := ((inst >>> 4) &&& 0x0F) + 16
  let c := ((inst >>> 4) &&& 0xF0) ||| (inst &&& 0x0F)
  let r := dm8 m rd_addr &&& c
  let m := { m with dm := wr8 m.dm rd_addr r, pc := m.pc + 2 }
  let m := MSIM_AVR_UpdateSREGFlag m AVR_SREG_NEGATIVE ((r >>> 7) &&& 1)
  let m := MSIM_AVR_UpdateSREGFlag m AVR_SREG_TWOSCOM_OF 0
  let m := MSIM_AVR_UpdateSREGFlag m AVR_SREG_SIGN
    (MSIM_AVR_ReadSREGFlag m AVR_SREG_NEGATIVE ^^^
     MSIM_AVR_ReadSREGFlag m AVR_SREG_TWOSCOM_OF)
  MSIM_AVR_UpdateSREGFlag m AVR_SREG_ZERO (if r = 0 then 1 else 0)

/-- exec_and (avr_decoder.c): AND - Logical AND. -/
def exec_and (m : Mcu) (inst : Nat) : Mcu :=
  let rd_addr := (inst &&& 0x1F0) >>> 4
  let rr_addr := ((inst &&& 0x200) >>> 5) ||| (inst &&& 0x0F)
  let r := dm8 m rd_addr &&& dm8 m rr_addr
  let m := { m with dm := wr8 m.dm rd_addr r, pc := m.pc + 2 }
  let m := MSIM_AVR_UpdateSREGFlag m AVR_SREG_NEGATIVE ((r >>> 7) &&& 1)
  let m := MSIM_AVR_UpdateSREGFlag m AVR_SREG_TWOSCOM_OF 0
  let m := MSIM_AVR_UpdateSREGFlag m AVR_SREG_SIGN
    (MSIM_AVR_ReadSREGFlag m AVR_SREG_NEGATIVE ^^^
     MSIM_AVR_ReadSREGFlag m AVR_SREG_TWOSCOM_OF)
  MSIM_AVR_UpdateSREGFlag m AVR_SREG_ZERO (if r = 0 then 1 else 0)

/-- exec_sbiw (avr_decoder.c): SBIW - Subtract Immediate from Word;
unsigned int arithmetic, flags computed from buf = r AND NOT buf. -/
def exec_sbiw (m : Mcu) (inst : Nat) : Mcu :=
  SKIP_CYCLES m true 1 (fun m =>
    let regs : List Nat := [24, 26, 28, 30]
    let rdl_addr := regs.getD ((inst >>> 4) &&& 0x03) 24
    let rdh_addr := rdl_addr + 1
    let c := ((inst >>> 2) &&& 0x30) ||| (inst &&& 0x0F)
    let buf := (dm8 m rdh_addr <<< 8) ||| dm8 m rdl_addr
    let r := u32 (buf + 4294967296 - c)
    let buf := r &&& nc32 buf
    let m := MSIM_AVR_UpdateSREGFlag m AVR_SREG_CARRY ((buf >>> 15) &&& 1)
    let m := MSIM_AVR_UpdateSREGFlag m AVR_SREG_NEGATIVE ((r >>> 15) &&& 1)
    let m := MSIM_AVR_UpdateSREGFlag m AVR_SREG_TWOSCOM_OF ((buf >>> 15) &&& 1)
    let m := MSIM_AVR_UpdateSREGFlag m AVR_SREG_SIGN
      (MSIM_AVR_ReadSREGFlag m AVR_SREG_NEGATIVE ^^^
       MSIM_AVR_ReadSREGFlag m AVR_SREG_TWOSCOM_OF)
    let m := MSIM_AVR_UpdateSREGFlag m AVR_SREG_ZERO (if r = 0 then 1 else 0)
    let m := { m with dm := wr8 m.dm rdh_addr ((r >>> 8) &&& 0xFF) }
    let m := { m with dm := wr8 m.dm rdl_addr (r &&& 0xFF) }
    { m with pc := m.pc + 2 })

/-- exec_brcc_brsh (avr_decoder.c): BRCC. -/
def exec_brcc_brsh (m : Mcu) (inst : Nat) : Mcu :=
  let cond := MSIM_AVR_ReadSREGFlag m AVR_SREG_CARRY
  let c : Int :=
    if 63 < (inst >>> 3) &&& 0x7F then (((inst >>> 3) &&& 0x7F : Nat) : Int) - 128
    else (((inst >>> 3) &&& 0x7F : Nat) : Int)
  SKIP_CYCLES m (cond == 0) 1 (fun m =>
    if cond = 0 then { m with pc := pcAdd m.pc ((c + 1) * 2) }
    else { m with pc := m.pc + 2 })

/-- exec_brcs_brlo (avr_decoder.c): BRCS. -/
def exec_brcs_brlo (m : Mcu) (inst : Nat) : Mcu :=
  let cond := MSIM_AVR_ReadSREGFlag m AVR_SREG_CARRY
  let c : Int :=
    if 63 < (inst >>> 3) &&& 0x7F then (((inst >>> 3) &&& 0x7F : Nat) : Int) - 128
    else (((inst >>> 3) &&& 0x7F : Nat) : Int)
  SKIP_CYCLES m (cond != 0) 1 (fun m =>
    if cond ≠ 0 then { m with pc := pcAdd m.pc ((c + 1) * 2) }
    else { m with pc := m.pc + 2 })

/-- exec_sub (avr_decoder.c): SUB - Subtract Without Carry. -/
def exec_sub (m : Mcu) (inst : Nat) : Mcu :=
  let rda := (inst >>> 4) &&& 0x1F
  let rra := ((inst >>> 5) &&& 0x10) ||| (inst &&& 0xF)
  let rd := dm8 m rda
  let rr := dm8 m rra
  let r := (rd + 256 - rr) % 256
  let m := { m with dm := wr8 m.dm rda r, pc := m.pc + 2 }
  let buf := (nc32 rd &&& rr) ||| (rr &&& r) ||| (r &&& nc32 rd)
  let m := MSIM_AVR_UpdateSREGFlag m AVR_SREG_CARRY ((buf >>> 7) &&& 1)
  let m := MSIM_AVR_UpdateSREGFlag m AVR_SREG_ZERO (if r = 0 then 1 else 0)
  let m := MSIM_AVR_UpdateSREGFlag m AVR_SREG_NEGATIVE ((r >>> 7) &&& 1)
  let m := MSIM_AVR_UpdateSREGFlag m AVR_SREG_TWOSCOM_OF
    ((((rd &&& nc32 rr &&& nc32 r) ||| (nc32 rd &&& rr &&& r)) >>> 7) &&& 1)
  let m := MSIM_AVR_UpdateSREGFlag m AVR_SREG_SIGN
    (MSIM_AVR_ReadSREGFlag m AVR_SREG_NEGATIVE ^^^
     MSIM_AVR_ReadSREGFlag m AVR_SREG_TWOSCOM_OF)
  MSIM_AVR_UpdateSREGFlag m AVR_SREG_HALF_CARRY ((buf >>> 3) &&& 1)

/-- exec_subi (avr_decoder.c): SUBI - Subtract Immediate.  Note that
the destination register address is NOT offset the way the source
computes it: the source uses rd_addr+16 at every access. -/
def exec_subi (m : Mcu) (inst : Nat) : Mcu :=
  let rd_addr := (inst &&& 0xF0) >>> 4
  let c := ((inst &&& 0xF00) >>> 4) ||| (inst &&& 0xF)
  let rd := dm8 m (rd_addr + 16)
  let r := (rd + 256 - c) % 256
  let m := { m with dm := wr8 m.dm (rd_addr + 16) r, pc := m.pc + 2 }
  let buf := (nc32 rd &&& c) ||| (c &&& r) ||| (r &&& nc32 rd)
  let m := MSIM_AVR_UpdateSREGFlag m AVR_SREG_CARRY ((buf >>> 7) &&& 1)
  let m := MSIM_AVR_UpdateSREGFlag m AVR_SREG_HALF_CARRY ((buf >>> 3) &&& 1)
  let m := MSIM_AVR_UpdateSREGFlag m AVR_SREG_NEGATIVE ((r >>> 7) &&& 1)
  let m := MSIM_AVR_UpdateSREGFlag m AVR_SREG_TWOSCOM_OF
    ((((rd &&& nc32 c &&& nc32 r) ||| (nc32 rd &&& c &&& r)) >>> 7) &&& 1)
  let m := MSIM_AVR_UpdateSREGFlag m AVR_SREG_SIGN
    (MSIM_AVR_ReadSREGFlag m AVR_SREG_NEGATIVE ^^^
     MSIM_AVR_ReadSREGFlag m AVR_SREG_TWOSCOM_OF)
  MSIM_AVR_UpdateSREGFlag m AVR_SREG_ZERO (if r = 0 then 1 else 0)

/-- exec_sbc (avr_decoder.c lines 1556-1585): SBC - Subtract with
Carry; the result r is an unsigned char and the zero flag is only ever
cleared, guarded by the test on that byte. -/
def exec_sbc (m : Mcu) (inst : Nat) : Mcu :=
  let rda := (inst >>> 4) &&& 0x1F
  let rra := ((inst >>> 5) &&& 0x10) ||| (inst &&& 0xF)
  let rd := dm8 m rda
  let rr := dm8 m rra
  let r := (rd + 512 - rr - MSIM_AVR_ReadSREGFlag m AVR_SREG_CARRY) % 256
  let m := { m with dm := wr8 m.dm rda r, pc := m.pc + 2 }
  let buf := (nc32 rd &&& rr) ||| (rr &&& r) ||| (r &&& nc32 rd)
  let m := MSIM_AVR_UpdateSREGFlag m AVR_SREG_CARRY ((buf >>> 7) &&& 1)
  let m := if r ≠ 0 then MSIM_AVR_UpdateSREGFlag m AVR_SREG_ZERO 0 else m
  let m := MSIM_AVR_UpdateSREGFlag m AVR_SREG_NEGATIVE ((r >>> 7) &&& 1)
  let m := MSIM_AVR_UpdateSREGFlag m AVR_SREG_TWOSCOM_OF
    ((((rd &&& nc32 rr &&& nc32 r) ||| (nc32 rd &&& rr &&& r)) >>> 7) &&& 1)
  let m := MSIM_AVR_UpdateSREGFlag m AVR_SREG_SIGN
    (MSIM_AVR_ReadSREGFlag m AVR_SREG_NEGATIVE ^^^
     MSIM_AVR_ReadSREGFlag m AVR_SREG_TWOSCOM_OF)
  MSIM_AVR_UpdateSREGFlag m AVR_SREG_HALF_CARRY ((buf >>> 3) &&& 1)

/-- exec_adiw (avr_decoder.c lines 1587-1614): ADIW - Add Immediate to
Word.  The 16-bit operand is widened to unsigned int, the sum r is NOT
reduced to 16 bits, and the zero flag is computed from that unreduced
sum. -/
def exec_adiw (m : Mcu) (inst : Nat) : Mcu :=
  SKIP_CYCLES m true 1 (fun m =>
    let regs : List Nat := [24, 26, 28, 30]
    let rdl_addr := regs.getD ((inst >>> 4) &&& 3) 24
    let rdh_addr := rdl_addr + 1
    let c := ((inst >>> 2) &&& 0x30) ||| (inst &&& 0x0F)
    let rd := (dm8 m rdh_addr <<< 8) ||| dm8 m rdl_addr
    let r := rd + c
    let m := MSIM_AVR_UpdateSREGFlag m AVR_SREG_CARRY (((nc32 r &&& rd) >>> 15) &&& 1)
    let m := MSIM_AVR_UpdateSREGFlag m AVR_SREG_NEGATIVE ((r >>> 15) &&& 1)
    let m := MSIM_AVR_UpdateSREGFlag m AVR_SREG_TWOSCOM_OF (((r &&& nc32 rd) >>> 15) &&& 1)
    let m := MSIM_AVR_UpdateSREGFlag m AVR_SREG_SIGN
      (MSIM_AVR_ReadSREGFlag m AVR_SREG_NEGATIVE ^^^
       MSIM_AVR_ReadSREGFlag m AVR_SREG_TWOSCOM_OF)
    let m := MSIM_AVR_UpdateSREGFlag m AVR_SREG_ZERO (if r = 0 then 1 else 0)
    let m := { m with dm := wr8 m.dm rdh_addr ((r >>> 8) &&& 0xFF) }
    let m := { m with dm := wr8 m.dm rdl_addr (r &&& 0xFF) }
    { m with pc := m.pc + 2 })

/-- exec_adc_rol (avr_decoder.c): ADC - Add with Carry. -/
def exec_adc_rol (m : Mcu) (inst : Nat) : Mcu :=
  let rd_addr := (inst &&& 0x1F0) >>> 4
  let rr_addr := ((inst &&& 0x200) >>> 5) ||| (inst &&& 0x0F)
  let rd := dm8 m rd_addr
  let rr := dm8 m rr_addr
  let r := (rd + rr + MSIM_AVR_ReadSREGFlag m AVR_SREG_CARRY) % 256
  let m := { m with dm := wr8 m.dm rd_addr r }
  let buf := (rd &&& rr) ||| (rr &&& nc32 r) ||| (nc32 r &&& rd)
  let m := MSIM_AVR_UpdateSREGFlag m AVR_SREG_CARRY ((buf >>> 7) &&& 1)
  let m := MSIM_AVR_UpdateSREGFlag m AVR_SREG_ZERO (if r = 0 then 1 else 0)
  let m := MSIM_AVR_UpdateSREGFlag m AVR_SREG_NEGATIVE ((r >>> 7) &&& 1)
  let m := MSIM_AVR_UpdateSREGFlag m AVR_SREG_TWOSCOM_OF
    ((((rd &&& rr &&& nc32 r) ||| (nc32 rd &&& nc32 rr &&& r)) >>> 7) &&& 1)
  let m := MSIM_AVR_UpdateSREGFlag m AVR_SREG_SIGN
    (MSIM_AVR_ReadSREGFlag m AVR_SREG_NEGATIVE ^^^
     MSIM_AVR_ReadSREGFlag m AVR_SREG_TWOSCOM_OF)
  let m := MSIM_AVR_UpdateSREGFlag m AVR_SREG_HALF_CARRY ((buf >>> 3) &&& 1)
  { m with pc := m.pc + 2 }

/-- exec_add_lsl (avr_decoder.c): ADD - Add without Carry (LSL). -/
def exec_add_lsl (m : Mcu) (inst : Nat) : Mcu :=
  let rd_addr := (inst &&& 0x1F0) >>> 4
  let rr_addr := ((inst &&& 0x200) >>> 5) ||| (inst &&& 0x0F)
  let rd := dm8 m rd_addr
  let rr := dm8 m rr_addr
  let r := (rd + rr) % 256
  let m := { m with dm := wr8 m.dm rd_addr r }
  let buf := (rd &&& rr) ||| (rr &&& nc32 r) ||| (nc32 r &&& rd)
  let m := MSIM_AVR_UpdateSREGFlag m AVR_SREG_CARRY ((buf >>> 7) &&& 1)
  let m := MSIM_AVR_UpdateSREGFlag m AVR_SREG_ZERO (if r = 0 then 1 else 0)
  let m := MSIM_AVR_UpdateSREGFlag m AVR_SREG_NEGATIVE ((r >>> 7) &&& 1)
  let m := MSIM_AVR_UpdateSREGFlag m AVR_SREG_TWOSCOM_OF
    ((((rd &&& rr &&& nc32 r) ||| (nc32 rd &&& nc32 rr &&& r)) >>> 7) &&& 1)
  let m := MSIM_AVR_UpdateSREGFlag m AVR_SREG_SIGN
    (MSIM_AVR_ReadSREGFlag m AVR_SREG_NEGATIVE ^^^
     MSIM_AVR_ReadSREGFlag m AVR_SREG_TWOSCOM_OF)
  let m := MSIM_AVR_UpdateSREGFlag m AVR_SREG_HALF_CARRY ((buf >>> 3) &&& 1)
  { m with pc := m.pc + 2 }

/-- exec_asr (avr_decoder.c): ASR - Arithmetic Shift Right. -/
def exec_asr (m : Mcu) (inst : Nat) : Mcu :=
  let rd_addr := (inst &&& 0x1F0) >>> 4
  let rd := dm8 m rd_addr
  let msb_orig := (rd >>> 7) &&& 1
  let lsb_orig := rd &&& 1
  let r := if msb_orig ≠ 0 then (rd >>> 1) ||| (1 <<< 7)
           else (rd >>> 1) &&& (255 ^^^ (1 <<< 7))
  let m := { m with dm := wr8 m.dm rd_addr r }
  let m := MSIM_AVR_UpdateSREGFlag m AVR_SREG_CARRY lsb_orig
  let m := MSIM_AVR_UpdateSREGFlag m AVR_SREG_ZERO (if r = 0 then 1 else 0)
  let m := MSIM_AVR_UpdateSREGFlag m AVR_SREG_NEGATIVE msb_orig
  let m := MSIM_AVR_UpdateSREGFlag m AVR_SREG_TWOSCOM_OF
    (MSIM_AVR_ReadSREGFlag m AVR_SREG_NEGATIVE ^^^
     MSIM_AVR_ReadSREGFlag m AVR_SREG_CARRY)
  let m := MSIM_AVR_UpdateSREGFlag m AVR_SREG_SIGN
    (MSIM_AVR_ReadSREGFlag m AVR_SREG_NEGATIVE ^^^
     MSIM_AVR_ReadSREGFlag m AVR_SREG_TWOSCOM_OF)
  { m with pc := m.pc + 2 }

/-- exec_bclr (avr_decoder.c): BCLR - Bit Clear in SREG. -/
def exec_bclr (m : Mcu) (inst : Nat) : Mcu :=
  let bit := (inst &&& 0x70) >>> 4
  let s := dm8 m m.sregAddr &&& (0xFF ^^^ ((1 <<< bit) &&& 0xFF))
  { m with dm := wr8 m.dm m.sregAddr s, pc := m.pc + 2 }

/-- exec_bld (avr_decoder.c): BLD - Bit Load from T to a register. -/
def exec_bld (m : Mcu) (inst : Nat) : Mcu :=
  let rd_addr := (inst &&& 0x1F0) >>> 4
  let bit := inst &&& 0x07
  let t := MSIM_AVR_ReadSREGFlag m AVR_SREG_T_BIT
  let m :=
    if t ≠ 0 then
      { m with dm := wr8 m.dm rd_addr (dm8 m rd_addr ||| ((1 <<< bit) &&& 0xFF)) }
    else
      { m with dm := wr8 m.dm rd_addr (dm8 m rd_addr &&& (0xFF ^^^ ((1 <<< bit) &&& 0xFF))) }
  { m with pc := m.pc + 2 }

/-- exec_brbc (avr_decoder.c): BRBC - Branch if Bit in SREG Cleared. -/
def exec_brbc (m : Mcu) (inst : Nat) : Mcu :=
  let cond := (dm8 m m.sregAddr >>> (inst &&& 0x07)) &&& 1
  let c : Int :=
    if 63 < (inst >>> 3) &&& 0x7F then (((inst >>> 3) &&& 0x7F : Nat) : Int) - 128
    else (((inst >>> 3) &&& 0x7F : Nat) : Int)
  SKIP_CYCLES m (cond == 0) 1 (fun m =>
    if cond = 0 then { m with pc := pcAdd m.pc ((c + 1) * 2) }
    else { m with pc := m.pc + 2 })

/-- exec_brbs (avr_decoder.c): BRBS - Branch if Bit in SREG Set. -/
def exec_brbs (m : Mcu) (inst : Nat) : Mcu :=
  let cond := (dm8 m m.sregAddr >>> (inst &&& 0x07)) &&& 1
  let c : Int :=
    if 63 < (inst >>> 3) &&& 0x7F then (((inst >>> 3) &&& 0x7F : Nat) : Int) - 128
    else (((inst >>> 3) &&& 0x7F : Nat) : Int)
  SKIP_CYCLES m (cond != 0) 1 (fun m =>
    if cond ≠ 0 then { m with pc := pcAdd m.pc ((c + 1) * 2) }
    else { m with pc := m.pc + 2 })

/-- exec_break (avr_decoder.c): BREAK - stop the CPU and arm the
one-shot match-point fetch. -/
def exec_break (m : Mcu) : Mcu :=
  { m with state := AVR_STOPPED, read_from_mpm := true }

/-- exec_breq (avr_decoder.c): BREQ. -/
def exec_breq (m : Mcu) (inst : Nat) : Mcu :=
  let f := MSIM_AVR_ReadSREGFlag m AVR_SREG_ZERO
  let c : Int :=
    if 63 < (inst >>> 3) &&& 0x7F then (((inst >>> 3) &&& 0x7F : Nat) : Int) - 128
    else (((inst >>> 3) &&& 0x7F : Nat) : Int)
  SKIP_CYCLES m (f != 0) 1 (fun m =>
    if f ≠ 0 then { m with pc := pcAdd m.pc ((c + 1) * 2) }
    else { m with pc := m.pc + 2 })

/-- exec_brhc (avr_decoder.c): BRHC. -/
def exec_brhc (m : Mcu) (inst : Nat) : Mcu :=
  let f := MSIM_AVR_ReadSREGFlag m AVR_SREG_HALF_CARRY
  let c : Int :=
    if 63 < (inst >>> 3) &&& 0x7F then (((inst >>> 3) &&& 0x7F : Nat) : Int) - 128
    else (((inst >>> 3) &&& 0x7F : Nat) : Int)
  SKIP_CYCLES m (f == 0) 1 (fun m =>
    if f = 0 then { m with pc := pcAdd m.pc ((c + 1) * 2) }
    else { m with pc := m.pc + 2 })

/-- exec_brhs (avr_decoder.c): BRHS. -/
def exec_brhs (m : Mcu) (inst : Nat) : Mcu :=
  let f := MSIM_AVR_ReadSREGFlag m AVR_SREG_HALF_CARRY
  let c : Int :=
    if 63 < (inst >>> 3) &&& 0x7F then (((inst >>> 3) &&& 0x7F : Nat) : Int) - 128
    else (((inst >>> 3) &&& 0x7F : Nat) : Int)
  SKIP_CYCLES m (f != 0) 1 (fun m =>
    if f ≠ 0 then { m with pc := pcAdd m.pc ((c + 1) * 2) }
    else { m with pc := m.pc + 2 })

/-- exec_brid (avr_decoder.c): BRID. -/
def exec_brid (m : Mcu) (inst : Nat) : Mcu :=
  let f := MSIM_AVR_ReadSREGFlag m AVR_SREG_GLOB_INT
  let c : Int :=
    if 63 < (inst >>> 3) &&& 0x7F then (((inst >>> 3) &&& 0x7F : Nat) : Int) - 128
    else (((inst >>> 3) &&& 0x7F : Nat) : Int)
  SKIP_CYCLES m (f == 0) 1 (fun m =>
    if f = 0 then { m with pc := pcAdd m.pc ((c + 1) * 2) }
    else { m with pc := m.pc + 2 })

/-- exec_brie (avr_decoder.c): BRIE. -/
def exec_brie (m : Mcu) (inst : Nat) : Mcu :=
  let f := MSIM_AVR_ReadSREGFlag m AVR_SREG_GLOB_INT
  let c : Int :=
    if 63 < (inst >>> 3) &&& 0x7F then (((inst >>> 3) &&& 0x7F : Nat) : Int) - 128
    else (((inst >>> 3) &&& 0x7F : Nat) : Int)
  SKIP_CYCLES m (f != 0) 1 (fun m =>
    if f ≠ 0 then { m with pc := pcAdd m.pc ((c + 1) * 2) }
    else { m with pc := m.pc + 2 })

/-- exec_brmi (avr_decoder.c): BRMI. -/
def exec_brmi (m : Mcu) (inst : Nat) : Mcu :=
  let f := MSIM_AVR_ReadSREGFlag m AVR_SREG_NEGATIVE
  let c : Int :=
    if 63 < (inst >>> 3) &&& 0x7F then (((inst >>> 3) &&& 0x7F : Nat) : Int) - 128
    else (((inst >>> 3) &&& 0x7F : Nat) : Int)
  SKIP_CYCLES m (f != 0) 1 (fun m =>
    if f ≠ 0 then { m with pc := pcAdd m.pc ((c + 1) * 2) }
    else { m with pc := m.pc + 2 })

/-- exec_brpl (avr_decoder.c): BRPL. -/
def exec_brpl (m : Mcu) (inst : Nat) : Mcu :=
  let f := MSIM_AVR_ReadSREGFlag m AVR_SREG_NEGATIVE
  let c : Int :=
    if 63 < (inst >>> 3) &&& 0x7F then (((inst >>> 3) &&& 0x7F : Nat) : Int) - 128
    else (((inst >>> 3) &&& 0x7F : Nat) : Int)
  SKIP_CYCLES m (f == 0) 1 (fun m =>
    if f = 0 then { m with pc := pcAdd m.pc ((c + 1) * 2) }
    else { m with pc := m.pc + 2 })

/-- exec_brtc (avr_decoder.c): BRTC. -/
def exec_brtc (m : Mcu) (inst : Nat) : Mcu :=
  let f := MSIM_AVR_ReadSREGFlag m AVR_SREG_T_BIT
  let c : Int :=
    if 63 < (inst >>> 3) &&& 0x7F then (((inst >>> 3) &&& 0x7F : Nat) : Int) - 128
    else (((inst >>> 3) &&& 0x7F : Nat) : Int)
  SKIP_CYCLES m (f == 0) 1 (fun m =>
    if f = 0 then { m with pc := pcAdd m.pc ((c + 1) * 2) }
    else { m with pc := m.pc + 2 })

/-- exec_brts (avr_decoder.c): BRTS. -/
def exec_brts (m : Mcu) (inst : Nat) : Mcu :=
  let f := MSIM_AVR_ReadSREGFlag m AVR_SREG_T_BIT
  let c : Int :=
    if 63 < (inst >>> 3) &&& 0x7F then (((inst >>> 3) &&& 0x7F : Nat) : Int) - 128
    else (((inst >>> 3) &&& 0x7F : Nat) : Int)
  SKIP_CYCLES m (f != 0) 1 (fun m =>
    if f ≠ 0 then { m with pc := pcAdd m.pc ((c + 1) * 2) }
    else { m with pc := m.pc + 2 })

/-- exec_brvc (avr_decoder.c): BRVC. -/
def exec_brvc (m : Mcu) (inst : Nat) : Mcu :=
  let f := MSIM_AVR_ReadSREGFlag m AVR_SREG_TWOSCOM_OF
  let c : Int :=
    if 63 < (inst >>> 3) &&& 0x7F then (((inst >>> 3) &&& 0x7F : Nat) : Int) - 128
    else (((inst >>> 3) &&& 0x7F : Nat) : Int)
  SKIP_CYCLES m (f == 0) 1 (fun m =>
    if f = 0 then { m with pc := pcAdd m.pc ((c + 1) * 2) }
    else { m with pc := m.pc + 2 })

/-- exec_brvs (avr_decoder.c): BRVS. -/
def exec_brvs (m : Mcu) (inst : Nat) : Mcu :=
  let f := MSIM_AVR_ReadSREGFlag m AVR_SREG_TWOSCOM_OF
  let c : Int :=
    if 63 < (inst >>> 3) &&& 0x7F then (((inst >>> 3) &&& 0x7F : Nat) : Int) - 128
    else (((inst >>> 3) &&& 0x7F : Nat) : Int)
  SKIP_CYCLES m (f != 0) 1 (fun m =>
    if f ≠ 0 then { m with pc := pcAdd m.pc ((c + 1) * 2) }
    else { m with pc := m.pc + 2 })

/-- exec_bset (avr_decoder.c): BSET - Bit Set in SREG. -/
def exec_bset (m : Mcu) (inst : Nat) : Mcu :=
  let bit := (inst &&& 0x70) >>> 4
  let s := dm8 m m.sregAddr ||| ((1 <<< bit) &&& 0xFF)
  { m with dm := wr8 m.dm m.sregAddr s, pc := m.pc + 2 }

/-- exec_bst (avr_decoder.c): BST - Bit Store from register to T. -/
def exec_bst (m : Mcu) (inst : Nat) : Mcu :=
  let b := inst &&& 0x07
  let rd_addr := (inst >>> 4) &&& 0x1F
  let m := MSIM_AVR_UpdateSREGFlag m AVR_SREG_T_BIT ((dm8 m rd_addr >>> b) &&& 1)
  { m with pc := m.pc + 2 }

/-- The effect of CALL on its completing cycle: the code of exec_call
after the open-coded cycle-skipping preamble (avr_decoder.c lines
2023-2037); it pushes the return address and jumps to the 22-bit word
address assembled from the two instruction words. -/
def exec_call_body (m : Mcu) (inst_msb : Nat) : Mcu :=
  let lsb := pm8 m (m.pc + 2)
  let msb := pm8 m (m.pc + 3)
  let inst_lsb := lsb ||| (msb <<< 8)
  let pc2 := m.pc + 4
  let c := (inst_lsb &&& 0xFFFF) |||
           ((((inst_msb >>> 3) &&& 0x3E) ||| (inst_msb &&& 1)) <<< 16)
  let m := MSIM_AVR_StackPush m (pc2 &&& 0xFF)
  let m := MSIM_AVR_StackPush m ((pc2 >>> 8) &&& 0xFF)
  let m := if 16 < m.pc_bits then MSIM_AVR_StackPush m ((pc2 >>> 16) &&& 0xFF) else m
  { m with pc := c <<< 1 }

/-- exec_call (avr_decoder.c lines 1995-2038): CALL - Long Call to a
Subroutine.  The multi-cycle bookkeeping of SKIP_CYCLES is open-coded
here exactly as in the source; the code after the preamble is
exec_call_body. -/
def exec_call (m : Mcu) (inst_msb : Nat) : Mcu :=
  if !m.in_mcinst then
    { m with in_mcinst := true,
             ic_left := if !m.xmega then (if 16 < m.pc_bits then 4 else 3)
                        else (if 16 < m.pc_bits then 3 else 2) }
  else if m.ic_left != 0 && m.ic_left - 1 != 0 then
    { m with ic_left := m.ic_left - 1 }
  else
    let m := if m.ic_left != 0 then { m with ic_left := m.ic_left - 1 } else m
    exec_call_body { m with in_mcinst := false } inst_msb

/-- exec_clc (avr_decoder.c): CLC. -/
def exec_clc (m : Mcu) : Mcu :=
  let m := MSIM_AVR_UpdateSREGFlag m AVR_SREG_CARRY 0
  { m with pc := m.pc + 2 }

/-- exec_sec (avr_decoder.c): SEC. -/
def exec_sec (m : Mcu) : Mcu :=
  let m := MSIM_AVR_UpdateSREGFlag m AVR_SREG_CARRY 1
  { m with pc := m.pc + 2 }

/-- exec_clh (avr_decoder.c): CLH. -/
def exec_clh (m : Mcu) : Mcu :=
  let m := MSIM_AVR_UpdateSREGFlag m AVR_SREG_HALF_CARRY 0
  { m with pc := m.pc + 2 }

/-- exec_seh (avr_decoder.c): SEH. -/
def exec_seh (m : Mcu) : Mcu :=
  let m := MSIM_AVR_UpdateSREGFlag m AVR_SREG_HALF_CARRY 1
  { m with pc := m.pc + 2 }

/-- exec_cli (avr_decoder.c): CLI. -/
def exec_cli (m : Mcu) : Mcu :=
  let m := MSIM_AVR_UpdateSREGFlag m AVR_SREG_GLOB_INT 0
  { m with pc := m.pc + 2 }

/-- exec_sei (avr_decoder.c): SEI. -/
def exec_sei (m : Mcu) : Mcu :=
  let m := MSIM_AVR_UpdateSREGFlag m AVR_SREG_GLOB_INT 1
  { m with pc := m.pc + 2 }

/-- exec_cln (avr_decoder.c): CLN. -/
def exec_cln (m : Mcu) : Mcu :=
  let m := MSIM_AVR_UpdateSREGFlag m AVR_SREG_NEGATIVE 0
  { m with pc := m.pc + 2 }

/-- exec_sen (avr_decoder.c): SEN. -/
def exec_sen (m : Mcu) : Mcu :=
  let m := MSIM_AVR_UpdateSREGFlag m AVR_SREG_NEGATIVE 1
  { m with pc := m.pc + 2 }

/-- exec_cls (avr_decoder.c): CLS. -/
def exec_cls (m : Mcu) : Mcu :=
  let m := MSIM_AVR_UpdateSREGFlag m AVR_SREG_SIGN 0
  { m with pc := m.pc + 2 }

/-- exec_ses (avr_decoder.c): SES. -/
def exec_ses (m : Mcu) : Mcu :=
  let m := MSIM_AVR_UpdateSREGFlag m AVR_SREG_SIGN 1
  { m with pc := m.pc + 2 }

/-- exec_clt (avr_decoder.c): CLT. -/
def exec_clt (m : Mcu) : Mcu :=
  let m := MSIM_AVR_UpdateSREGFlag m AVR_SREG_T_BIT 0
  { m with pc := m.pc + 2 }

/-- exec_set (avr_decoder.c): SET. -/
def exec_set (m : Mcu) : Mcu :=
  let m := MSIM_AVR_UpdateSREGFlag m AVR_SREG_T_BIT 1
  { m with pc := m.pc + 2 }

/-- exec_clv (avr_decoder.c): CLV. -/
def exec_clv (m : Mcu) : Mcu :=
  let m := MSIM_AVR_UpdateSREGFlag m AVR_SREG_TWOSCOM_OF 0
  { m with pc := m.pc + 2 }

/-- exec_sev (avr_decoder.c): SEV. -/
def exec_sev (m : Mcu) : Mcu :=
  let m := MSIM_AVR_UpdateSREGFlag m AVR_SREG_TWOSCOM_OF 1
  { m with pc := m.pc + 2 }

/-- exec_clz (avr_decoder.c): CLZ. -/
def exec_clz (m : Mcu) : Mcu :=
  let m := MSIM_AVR_UpdateSREGFlag m AVR_SREG_ZERO 0
  { m with pc := m.pc + 2 }

/-- exec_sez (avr_decoder.c): SEZ. -/
def exec_sez (m : Mcu) : Mcu :=
  let m := MSIM_AVR_UpdateSREGFlag m AVR_SREG_ZERO 1
  { m with pc := m.pc + 2 }

/-- exec_com (avr_decoder.c): COM - One's Complement. -/
def exec_com (m : Mcu) (inst : Nat) : Mcu :=
  let rd_addr := (inst >>> 4) &&& 0x1F
  let r := nc32 (dm8 m rd_addr) % 256
  let m := { m with dm := wr8 m.dm rd_addr r, pc := m.pc + 2 }
  let m := MSIM_AVR_UpdateSREGFlag m AVR_SREG_CARRY 1
  let m := MSIM_AVR_UpdateSREGFlag m AVR_SREG_ZERO (if r = 0 then 1 else 0)
  let m := MSIM_AVR_UpdateSREGFlag m AVR_SREG_NEGATIVE ((r >>> 7) &&& 1)
  let m := MSIM_AVR_UpdateSREGFlag m AVR_SREG_TWOSCOM_OF 0
  MSIM_AVR_UpdateSREGFlag m AVR_SREG_SIGN
    (MSIM_AVR_ReadSREGFlag m AVR_SREG_NEGATIVE ^^^
     MSIM_AVR_ReadSREGFlag m AVR_SREG_TWOSCOM_OF)

/-- exec_cpse (avr_decoder.c lines 2170-2187): CPSE - Compare Skip if
Equal.  Note that the argument handed to MSIM_AVR_Is32 is the single
byte pm[pc+2], exactly as in the source. -/
def exec_cpse (m : Mcu) (inst : Nat) : Mcu :=
  let rd_addr := (inst >>> 4) &&& 0x1F
  let rr_addr := ((inst >>> 5) &&& 0x10) ||| (inst &&& 0x0F)
  let is32 := MSIM_AVR_Is32 (pm8 m (m.pc + 2))
  let f := dm8 m rd_addr == dm8 m rr_addr
  SKIP_CYCLES m f (if is32 then 2 else 1) (fun m =>
    if f then { m with pc := m.pc + (if is32 then 6 else 4) }
    else { m with pc := m.pc + 2 })

/-- exec_dec (avr_decoder.c): DEC - Decrement. -/
def exec_dec (m : Mcu) (inst : Nat) : Mcu :=
  let rd_addr := (inst >>> 4) &&& 0x1F
  let rd := dm8 m rd_addr
  let val := u32 (rd + 4294967296 - 1)
  let r := val % 256
  let m := { m with dm := wr8 m.dm rd_addr r, pc := m.pc + 2 }
  let m := MSIM_AVR_UpdateSREGFlag m AVR_SREG_ZERO (if r = 0 then 1 else 0)
  let m := MSIM_AVR_UpdateSREGFlag m AVR_SREG_NEGATIVE ((r >>> 7) &&& 1)
  let m := MSIM_AVR_UpdateSREGFlag m AVR_SREG_TWOSCOM_OF (if rd = 0x80 then 1 else 0)
  MSIM_AVR_UpdateSREGFlag m AVR_SREG_SIGN
    (MSIM_AVR_ReadSREGFlag m AVR_SREG_NEGATIVE ^^^
     MSIM_AVR_ReadSREGFlag m AVR_SREG_TWOSCOM_OF)

/-- exec_fmul (avr_decoder.c lines 2210-2228): FMUL - Fractional
Multiply Unsigned.  The source stores the two result bytes masked with
0x0F (a nibble), not 0xFF. -/
def exec_fmul (m : Mcu) (inst : Nat) : Mcu :=
  SKIP_CYCLES m true 1 (fun m =>
    let rd_addr := 0x10 + ((inst >>> 4) &&& 7)
    let rr_addr := 0x10 + (inst &&& 7)
    let r := (dm8 m rd_addr * dm8 m rr_addr) % 65536
    let m := { m with dm := wr8 m.dm 0 ((r <<< 1) &&& 0x0F) }
    let m := { m with dm := wr8 m.dm 1 ((r >>> 7) &&& 0x0F) }
    let m := { m with pc := m.pc + 2 }
    let m := MSIM_AVR_UpdateSREGFlag m AVR_SREG_CARRY ((r >>> 15) &&& 1)
    MSIM_AVR_UpdateSREGFlag m AVR_SREG_ZERO (if r = 0 then 1 else 0))

/-- exec_fmuls (avr_decoder.c): FMULS - Fractional Multiply Signed; the
product r is a signed short, bit-accessed through its two's-complement
representation. -/
def exec_fmuls (m : Mcu) (inst : Nat) : Mcu :=
  SKIP_CYCLES m true 1 (fun m =>
    let rd_addr := 0x10 + ((inst >>> 4) &&& 7)
    let rr_addr := 0x10 + (inst &&& 7)
    let r : Int := sgn8 (dm8 m rd_addr) * sgn8 (dm8 m rr_addr)
    let m := { m with dm := wr8 m.dm 0 (i32 (r * 2) &&& 0x0F) }
    let m := { m with dm := wr8 m.dm 1 ((i32 r >>> 7) &&& 0x0F) }
    let m := { m with pc := m.pc + 2 }
    let m := MSIM_AVR_UpdateSREGFlag m AVR_SREG_CARRY ((i32 r >>> 15) &&& 1)
    MSIM_AVR_UpdateSREGFlag m AVR_SREG_ZERO (if r = 0 then 1 else 0))

/-- exec_fmulsu (avr_decoder.c): FMULSU - Fractional Multiply Signed
with Unsigned. -/
def exec_fmulsu (m : Mcu) (inst : Nat) : Mcu :=
  SKIP_CYCLES m true 1 (fun m =>
    let rd_addr := 0x10 + ((inst >>> 4) &&& 7)
    let rr_addr := 0x10 + (inst &&& 7)
    let r : Int := sgn8 (dm8 m rd_addr) * (dm8 m rr_addr : Int)
    let m := { m with dm := wr8 m.dm 0 (i32 (r * 2) &&& 0x0F) }
    let m := { m with dm := wr8 m.dm 1 ((i32 r >>> 7) &&& 0x0F) }
    let m := { m with pc := m.pc + 2 }
    let m := MSIM_AVR_UpdateSREGFlag m AVR_SREG_CARRY ((i32 r >>> 15) &&& 1)
    MSIM_AVR_UpdateSREGFlag m AVR_SREG_ZERO (if r = 0 then 1 else 0))

/-- exec_icall (avr_decoder.c): ICALL - Indirect Call to Subroutine. -/
def exec_icall (m : Mcu) : Mcu :=
  let body := fun (m : Mcu) =>
    let pc2 := m.pc + 2
    let zh := dm8 m REG_ZH
    let zl := dm8 m REG_ZL
    let m := MSIM_AVR_StackPush m (pc2 &&& 0xFF)
    let m := MSIM_AVR_StackPush m ((pc2 >>> 8) &&& 0xFF)
    let m := if 16 < m.pc_bits then MSIM_AVR_StackPush m ((pc2 >>> 16) &&& 0xFF) else m
    { m with pc := ((zh <<< 8) &&& 0xFF00) ||| (zl &&& 0xFF) }
  if m.xmega then SKIP_CYCLES m true (if 16 < m.pc_bits then 2 else 1) body
  else SKIP_CYCLES m true (if 16 < m.pc_bits then 3 else 2) body

/-- exec_ijmp (avr_decoder.c): IJMP - Indirect Jump. -/
def exec_ijmp (m : Mcu) : Mcu :=
  SKIP_CYCLES m true 1 (fun m =>
    let zh := dm8 m REG_ZH
    let zl := dm8 m REG_ZL
    { m with pc := ((zh <<< 8) &&& 0xFF00) ||| (zl &&& 0xFF) })

/-- exec_inc (avr_decoder.c): INC - Increment. -/
def exec_inc (m : Mcu) (inst : Nat) : Mcu :=
  let rd_addr := (inst >>> 4) &&& 0x1F
  let rd := dm8 m rd_addr
  let val := u32 (rd + 1)
  let r := val % 256
  let m := { m with dm := wr8 m.dm rd_addr r, pc := m.pc + 2 }
  let m := MSIM_AVR_UpdateSREGFlag m AVR_SREG_ZERO (if r = 0 then 1 else 0)
  let m := MSIM_AVR_UpdateSREGFlag m AVR_SREG_NEGATIVE ((r >>> 7) &&& 1)
  let m := MSIM_AVR_UpdateSREGFlag m AVR_SREG_TWOSCOM_OF (if rd = 0x7F then 1 else 0)
  MSIM_AVR_UpdateSREGFlag m AVR_SREG_SIGN
    (MSIM_AVR_ReadSREGFlag m AVR_SREG_NEGATIVE ^^^
     MSIM_AVR_ReadSREGFlag m AVR_SREG_TWOSCOM_OF)

/-- exec_jmp (avr_decoder.c): JMP - Jump. -/
def exec_jmp (m : Mcu) (inst : Nat) : Mcu :=
  SKIP_CYCLES m true 2 (fun m =>
    let msb := ((pm8 m (m.pc + 3) <<< 8) &&& 0xFF00) ||| (pm8 m (m.pc + 2) &&& 0xFF)
    let c := msb ||| ((((inst >>> 3) &&& 0x3E) ||| (inst &&& 0x01)) <<< 16)
    { m with pc := c <<< 1 })

/-- exec_lac (avr_decoder.c): LAC - Load and Clear. -/
def exec_lac (m : Mcu) (inst : Nat) : Mcu :=
  SKIP_CYCLES m true 1 (fun m =>
    let zh := dm8 m REG_ZH
    let zl := dm8 m REG_ZL
    let z := ((zh <<< 8) &&& 0xFF00) ||| (zl &&& 0xFF)
    let rd_addr := (inst >>> 4) &&& 0x1F
    let rd := dm8 m rd_addr
    let m := { m with dm := wr8 m.dm rd_addr (dm8 m z) }
    let m := { m with dm := wr8 m.dm z (dm8 m z &&& (nc32 rd % 256)) }
    { m with pc := m.pc + 2 })

/-- exec_las (avr_decoder.c): LAS - Load and Set. -/
def exec_las (m : Mcu) (inst : Nat) : Mcu :=
  SKIP_CYCLES m true 1 (fun m =>
    let zh := dm8 m REG_ZH
    let zl := dm8 m REG_ZL
    let z := ((zh <<< 8) &&& 0xFF00) ||| (zl &&& 0xFF)
    let rd_addr := (inst >>> 4) &&& 0x1F
    let rd := dm8 m rd_addr
    let m := { m with dm := wr8 m.dm rd_addr (dm8 m z) }
    let m := { m with dm := wr8 m.dm z (dm8 m z ||| rd) }
    { m with pc := m.pc + 2 })

/-- exec_lat (avr_decoder.c): LAT - Load and Toggle. -/
def exec_lat (m : Mcu) (inst : Nat) : Mcu :=
  SKIP_CYCLES m true 1 (fun m =>
    let zh := dm8 m REG_ZH
    let zl := dm8 m REG_ZL
    let z := ((zh <<< 8) &&& 0xFF00) ||| (zl &&& 0xFF)
    let rd_addr := (inst >>> 4) &&& 0x1F
    let rd := dm8 m rd_addr
    let m := { m with dm := wr8 m.dm rd_addr (dm8 m z) }
    let m := { m with dm := wr8 m.dm z (dm8 m z ^^^ rd) }
    { m with pc := m.pc + 2 })

/-- exec_lds (avr_decoder.c): LDS - Load Direct from Data Space. -/
def exec_lds (m : Mcu) (inst : Nat) : Mcu :=
  let i2 := pm8 m (m.pc + 2)
  let i3 := pm8 m (m.pc + 3)
  let addr := ((i3 <<< 8) &&& 0xFF00) ||| (i2 &&& 0xFF)
  let body := fun (m : Mcu) =>
    let rd_addr := (inst >>> 4) &&& 0x1F
    { m with dm := wr8 m.dm rd_addr (dm8 m addr), pc := m.pc + 4 }
  if !m.xmega then SKIP_CYCLES m true 1 body
  else SKIP_CYCLES m true (if addr ≤ m.ramend ∧ m.ramstart ≤ addr then 2 else 1) body

/-- exec_lds16 (avr_decoder.c): LDS (16-bit variant). -/
def exec_lds16 (m : Mcu) (inst : Nat) : Mcu :=
  let addr := ((nc32 inst >>> 1) &&& 0x80) ||| ((inst >>> 2) &&& 0x40) |||
              ((inst >>> 5) &&& 0x30) ||| (inst &&& 0x0F)
  let rd_addr := ((inst >>> 4) &&& 0x0F) + 16
  { m with dm := wr8 m.dm rd_addr (dm8 m addr), pc := m.pc + 2 }

/-- exec_lpm (avr_decoder.c): LPM - Load Program Memory (types I, II
and III). -/
def exec_lpm (m : Mcu) (inst : Nat) : Mcu :=
  SKIP_CYCLES m true 2 (fun m =>
    let zh := dm8 m REG_ZH
    let zl := dm8 m REG_ZL
    let z := ((zh <<< 8) &&& 0xFF00) ||| (zl &&& 0xFF)
    let m :=
      if inst = 0x95C8 then
        { m with dm := wr8 m.dm 0 (pm8 m z) }
      else if inst &&& 0xFE0F = 0x9004 then
        { m with dm := wr8 m.dm ((inst >>> 4) &&& 0x1F) (pm8 m z) }
      else if inst &&& 0xFE0F = 0x9005 then
        let rd_addr := (inst >>> 4) &&& 0x1F
        let m := { m with dm := wr8 m.dm rd_addr (pm8 m z) }
        let z := (z + 1) % 65536
        let m := { m with dm := wr8 m.dm REG_ZH ((z >>> 8) &&& 0xFF) }
        { m with dm := wr8 m.dm REG_ZL (z &&& 0xFF) }
      else m
    { m with pc := m.pc + 2 })

/-- exec_lsr (avr_decoder.c): LSR - Logical Shift Right. -/
def exec_lsr (m : Mcu) (inst : Nat) : Mcu :=
  let rd_addr := (inst >>> 4) &&& 0x1F
  let rd := dm8 m rd_addr
  let r := (rd >>> 1) &&& 0xFF
  let m := { m with dm := wr8 m.dm rd_addr r, pc := m.pc + 2 }
  let m := MSIM_AVR_UpdateSREGFlag m AVR_SREG_CARRY (rd &&& 1)
  let m := MSIM_AVR_UpdateSREGFlag m AVR_SREG_ZERO (if r = 0 then 1 else 0)
  let m := MSIM_AVR_UpdateSREGFlag m AVR_SREG_NEGATIVE 0
  let m := MSIM_AVR_UpdateSREGFlag m AVR_SREG_TWOSCOM_OF
    (MSIM_AVR_ReadSREGFlag m AVR_SREG_NEGATIVE ^^^
     MSIM_AVR_ReadSREGFlag m AVR_SREG_CARRY)
  MSIM_AVR_UpdateSREGFlag m AVR_SREG_SIGN
    (MSIM_AVR_ReadSREGFlag m AVR_SREG_NEGATIVE ^^^
     MSIM_AVR_ReadSREGFlag m AVR_SREG_TWOSCOM_OF)

/-- exec_sbrc (avr_decoder.c lines 2486-2502): SBRC - Skip if Bit in
Register is Cleared.  The argument handed to MSIM_AVR_Is32 is the
single byte pm[pc+2], exactly as in the source. -/
def exec_sbrc (m : Mcu) (inst : Nat) : Mcu :=
  let rr_addr := (inst >>> 4) &&& 0x1F
  let bit := inst &&& 7
  let r := (dm8 m rr_addr >>> bit) &&& 1
  SKIP_CYCLES m (r == 0) (if MSIM_AVR_Is32 (pm8 m (m.pc + 2)) then 2 else 1) (fun m =>
    if r = 0 then
      { m with pc := m.pc + (if MSIM_AVR_Is32 (pm8 m (m.pc + 2)) then 6 else 4) }
    else
      { m with pc := m.pc + 2 })

/-- exec_sbrs (avr_decoder.c lines 2504-2520): SBRS - Skip if Bit in
Register is Set.  The argument handed to MSIM_AVR_Is32 is the single
byte pm[pc+2], exactly as in the source. -/
def exec_sbrs (m : Mcu) (inst : Nat) : Mcu :=
  let rr_addr := (inst >>> 4) &&& 0x1F
  let bit := inst &&& 7
  let r := (dm8 m rr_addr >>> bit) &&& 1
  SKIP_CYCLES m (r != 0) (if MSIM_AVR_Is32 (pm8 m (m.pc + 2)) then 2 else 1) (fun m =>
    if r ≠ 0 then
      { m with pc := m.pc + (if MSIM_AVR_Is32 (pm8 m (m.pc + 2)) then 6 else 4) }
    else
      { m with pc := m.pc + 2 })

/-- exec_eicall (avr_decoder.c lines 2522-2560): EICALL - Extended
Indirect Call; on a device without the EIND register (or without a
22-bit PC) the run state becomes TESTFAIL and nothing else happens. -/
def exec_eicall (m : Mcu) : Mcu :=
  let err : Nat := 0
  let err := if m.eind.isNone then 1 else err
  let err := if m.pc_bits < 22 then 1 else err
  if err = 0 then
    SKIP_CYCLES m true (if m.xmega then 2 else 3) (fun m =>
      let zh := dm8 m REG_ZH
      let zl := dm8 m REG_ZL
      let eindv := dm8 m (m.eind.getD 0)
      let pc2 := m.pc + 2
      let m := MSIM_AVR_StackPush m (pc2 &&& 0xFF)
      let m := MSIM_AVR_StackPush m ((pc2 >>> 8) &&& 0xFF)
      let m := MSIM_AVR_StackPush m ((pc2 >>> 16) &&& 0xFF)
      { m with pc := ((eindv <<< 16) &&& 0xFF0000) |||
                     ((zh <<< 8) &&& 0xFF00) ||| (zl &&& 0xFF) })
  else
    { m with state := AVR_MSIM_TESTFAIL }

/-- exec_eijmp (avr_decoder.c lines 2562-2588): EIJMP - Extended
Indirect Jump; on a device without the EIND register the run state
becomes TESTFAIL and nothing else happens. -/
def exec_eijmp (m : Mcu) : Mcu :=
  let err : Nat := 0
  let err := if m.eind.isNone then 1 else err
  if err = 0 then
    SKIP_CYCLES m true 1 (fun m =>
      let zh := dm8 m REG_ZH
      let zl := dm8 m REG_ZL
      let eindv := dm8 m (m.eind.getD 0)
      { m with pc := ((eindv <<< 16) &&& 0xFF0000) |||
                     ((zh <<< 8) &&& 0xFF00) ||| (zl &&& 0xFF) })
  else
    { m with state := AVR_MSIM_TESTFAIL }

/-- exec_xch (avr_decoder.c): XCH - Exchange. -/
def exec_xch (m : Mcu) (inst : Nat) : Mcu :=
  SKIP_CYCLES m true 1 (fun m =>
    let zh := dm8 m REG_ZH
    let zl := dm8 m REG_ZL
    let z := ((zh <<< 8) &&& 0xFF00) ||| (zl &&& 0xFF)
    let v := dm8 m z
    let rd_addr := (inst >>> 4) &&& 0x1F
    let m := { m with dm := wr8 m.dm z (dm8 m rd_addr) }
    let m := { m with dm := wr8 m.dm rd_addr v }
    { m with pc := m.pc + 2 })

/-- exec_ror (avr_decoder.c): ROR - Rotate Right through Carry. -/
def exec_ror (m : Mcu) (inst : Nat) : Mcu :=
  let c := MSIM_AVR_ReadSREGFlag m AVR_SREG_CARRY
  let rd_addr := (inst >>> 4) &&& 0x1F
  let rd := dm8 m rd_addr
  let r := ((rd >>> 1) &&& 0x7F) ||| ((c <<< 7) &&& 0x80)
  let m := { m with dm := wr8 m.dm rd_addr r, pc := m.pc + 2 }
  let m := MSIM_AVR_UpdateSREGFlag m AVR_SREG_CARRY (rd &&& 1)
  let m := MSIM_AVR_UpdateSREGFlag m AVR_SREG_ZERO (if r = 0 then 1 else 0)
  let m := MSIM_AVR_UpdateSREGFlag m AVR_SREG_NEGATIVE ((r >>> 7) &&& 1)
  let m := MSIM_AVR_UpdateSREGFlag m AVR_SREG_TWOSCOM_OF
    (MSIM_AVR_ReadSREGFlag m AVR_SREG_NEGATIVE ^^^
     MSIM_AVR_ReadSREGFlag m AVR_SREG_CARRY)
  let m := MSIM_AVR_UpdateSREGFlag m AVR_SREG_SIGN
    (MSIM_AVR_ReadSREGFlag m AVR_SREG_NEGATIVE ^^^
     MSIM_AVR_ReadSREGFlag m AVR_SREG_TWOSCOM_OF)
  MSIM_AVR_UpdateSREGFlag m AVR_SREG_HALF_CARRY ((rd >>> 3) &&& 1)

/-- exec_reti (avr_decoder.c): RETI - Return from Interrupt. -/
def exec_reti (m : Mcu) : Mcu :=
  SKIP_CYCLES m true (if 16 < m.pc_bits then 4 else 3) (fun m =>
    let m :=
      if 16 < m.pc_bits then
        let (a, m) := MSIM_AVR_StackPop m
        let (b, m) := MSIM_AVR_StackPop m
        let (c, m) := MSIM_AVR_StackPop m
        { m with pc := ((a <<< 16) &&& 0xFF0000) ||| ((b <<< 8) &&& 0xFF00) |||
                       (c &&& 0xFF) }
      else
        let (a, m) := MSIM_AVR_StackPop m
        let (b, m) := MSIM_AVR_StackPop m
        { m with pc := ((a <<< 8) &&& 0xFF00) ||| (b &&& 0xFF) }
    let m := if !m.xmega then MSIM_AVR_UpdateSREGFlag m AVR_SREG_GLOB_INT 1 else m
    { m with exec_main := true })

/-- exec_swap (avr_decoder.c): SWAP - Swap Nibbles. -/
def exec_swap (m : Mcu) (inst : Nat) : Mcu :=
  let rd_addr := (inst >>> 4) &&& 0x1F
  let rdh := (dm8 m rd_addr >>> 4) &&& 0x0F
  { m with dm := wr8 m.dm rd_addr (((dm8 m rd_addr <<< 4) &&& 0xF0) ||| rdh),
           pc := m.pc + 2 }

/-- exec_or (avr_decoder.c): OR - Logical OR. -/
def exec_or (m : Mcu) (inst : Nat) : Mcu :=
  let rda := (inst >>> 4) &&& 0x1F
  let rra := ((inst >>> 5) &&& 0x10) ||| (inst &&& 0xF)
  let r := dm8 m rda ||| dm8 m rra
  let m := { m with dm := wr8 m.dm rda r, pc := m.pc + 2 }
  let m := MSIM_AVR_UpdateSREGFlag m AVR_SREG_ZERO (if r = 0 then 1 else 0)
  let m := MSIM_AVR_UpdateSREGFlag m AVR_SREG_NEGATIVE ((r >>> 7) &&& 1)
  let m := MSIM_AVR_UpdateSREGFlag m AVR_SREG_TWOSCOM_OF 0
  MSIM_AVR_UpdateSREGFlag m AVR_SREG_SIGN
    (MSIM_AVR_ReadSREGFlag m AVR_SREG_NEGATIVE ^^^
     MSIM_AVR_ReadSREGFlag m AVR_SREG_TWOSCOM_OF)

/-- exec_neg (avr_decoder.c): NEG - Two's Complement. -/
def exec_neg (m : Mcu) (inst : Nat) : Mcu :=
  let rda := (inst >>> 4) &&& 0x1F
  let rd := dm8 m rda
  let r := (nc32 rd + 1) % 256
  let m := { m with dm := wr8 m.dm rda r, pc := m.pc + 2 }
  let m := MSIM_AVR_UpdateSREGFlag m AVR_SREG_CARRY (if r ≠ 0 then 1 else 0)
  let m := MSIM_AVR_UpdateSREGFlag m AVR_SREG_ZERO (if r = 0 then 1 else 0)
  let m := MSIM_AVR_UpdateSREGFlag m AVR_SREG_NEGATIVE ((r >>> 7) &&& 1)
  let m := MSIM_AVR_UpdateSREGFlag m AVR_SREG_TWOSCOM_OF (if r = 0x80 then 1 else 0)
  let m := MSIM_AVR_UpdateSREGFlag m AVR_SREG_SIGN
    (MSIM_AVR_ReadSREGFlag m AVR_SREG_NEGATIVE ^^^
     MSIM_AVR_ReadSREGFlag m AVR_SREG_TWOSCOM_OF)
  MSIM_AVR_UpdateSREGFlag m AVR_SREG_HALF_CARRY (((r >>> 3) &&& 1) ||| ((rd >>> 3) &&& 1))

/-- exec_ser (avr_decoder.c): SER - Set all Bits in Register. -/
def exec_ser (m : Mcu) (inst : Nat) : Mcu :=
  let rda := ((inst >>> 4) &&& 0xF) + 16
  { m with dm := wr8 m.dm rda 0xFF, pc := m.pc + 2 }

/-- exec_mul (avr_decoder.c lines 2726-2745): MUL - Multiply Unsigned;
R1:R0 receives the 16-bit product, C is bit 15 and Z is set iff the
product is zero. -/
def exec_mul (m : Mcu) (inst : Nat) : Mcu :=
  SKIP_CYCLES m true 1 (fun m =>
    let rda := (inst >>> 4) &&& 0x1F
    let rra := ((inst >>> 5) &&& 0x10) ||| (inst &&& 0xF)
    let r := dm8 m rda * dm8 m rra
    let m := { m with dm := wr8 m.dm 0 (r &&& 0xFF) }
    let m := { m with dm := wr8 m.dm 1 ((r >>> 8) &&& 0xFF) }
    let m := { m with pc := m.pc + 2 }
    let m := MSIM_AVR_UpdateSREGFlag m AVR_SREG_CARRY ((r >>> 15) &&& 1)
    MSIM_AVR_UpdateSREGFlag m AVR_SREG_ZERO (if r = 0 then 1 else 0))

/-- exec_muls (avr_decoder.c): MULS - Multiply Signed. -/
def exec_muls (m : Mcu) (inst : Nat) : Mcu :=
  SKIP_CYCLES m true 1 (fun m =>
    let rda := ((inst >>> 4) &&& 0xF) + 16
    let rra := (inst &&& 0xF) + 16
    let r : Int := sgn8 (dm8 m rda) * sgn8 (dm8 m rra)
    let m := { m with dm := wr8 m.dm 0 (i32 r &&& 0xFF) }
    let m := { m with dm := wr8 m.dm 1 ((i32 r >>> 8) &&& 0xFF) }
    let m := { m with pc := m.pc + 2 }
    let m := MSIM_AVR_UpdateSREGFlag m AVR_SREG_CARRY ((i32 r >>> 15) &&& 1)
    MSIM_AVR_UpdateSREGFlag m AVR_SREG_ZERO (if r = 0 then 1 else 0))

/-- exec_mulsu (avr_decoder.c): MULSU - Multiply Signed with Unsigned. -/
def exec_mulsu (m : Mcu) (inst : Nat) : Mcu :=
  SKIP_CYCLES m true 1 (fun m =>
    let rda := ((inst >>> 4) &&& 0x7) + 16
    let rra := (inst &&& 0x7) + 16
    let r : Int := sgn8 (dm8 m rda) * (dm8 m rra : Int)
    let m := { m with dm := wr8 m.dm 0 (i32 r &&& 0xFF) }
    let m := { m with dm := wr8 m.dm 1 ((i32 r >>> 8) &&& 0xFF) }
    let m := { m with pc := m.pc + 2 }
    let m := MSIM_AVR_UpdateSREGFlag m AVR_SREG_CARRY ((i32 r >>> 15) &&& 1)
    MSIM_AVR_UpdateSREGFlag m AVR_SREG_ZERO (if r = 0 then 1 else 0))

/-- exec_elpm (avr_decoder.c lines 2791-2838): ELPM - Extended Load
Program Memory; on a device without the RAMPZ register the run state
becomes TESTFAIL and nothing else happens. -/
def exec_elpm (m : Mcu) (inst : Nat) : Mcu :=
  let err : Nat := 0
  let err := if m.rampz.isNone then 1 else err
  if err = 0 then
    SKIP_CYCLES m true 2 (fun m =>
      let ez := dm8 m (m.rampz.getD 0)
      let zh := dm8 m REG_ZH
      let zl := dm8 m REG_ZL
      let z := ((ez <<< 16) &&& 0xFF0000) ||| ((zh <<< 8) &&& 0xFF00) ||| (zl &&& 0xFF)
      let m :=
        if inst = 0x95D8 then
          { m with dm := wr8 m.dm 0 (pm8 m z) }
        else if inst &&& 0xFE0F = 0x9006 then
          { m with dm := wr8 m.dm ((inst >>> 4) &&& 0x1F) (pm8 m z) }
        else if inst &&& 0xFE0F = 0x9007 then
          let rda := (inst >>> 4) &&& 0x1F
          let m := { m with dm := wr8 m.dm rda (pm8 m z) }
          let z := z + 1
          let m := { m with dm := wr8 m.dm (m.rampz.getD 0) ((z >>> 16) &&& 0xFF) }
          let m := { m with dm := wr8 m.dm REG_ZH ((z >>> 8) &&& 0xFF) }
          { m with dm := wr8 m.dm REG_ZL (z &&& 0xFF) }
        else m
      { m with pc := m.pc + 2 })
  else
    { m with state := AVR_MSIM_TESTFAIL }

/-- exec_spm (avr_decoder.c): SPM - Store Program Memory; a small state
machine keyed on the low three bits of SPMCSR. -/
def exec_spm (m : Mcu) (inst : Nat) : Mcu :=
  let err : Nat := 0
  let err := if m.spmcsr.isNone then 1 else err
  if err = 0 then
    let ez := match m.rampz with
      | some a => dm8 m a
      | none => 0
    let zh := dm8 m REG_ZH
    let zl := dm8 m REG_ZL
    let z := ((ez <<< 16) &&& 0xFF0000) ||| ((zh <<< 8) &&& 0xFF00) ||| (zl &&& 0xFF)
    let c := dm8 m (m.spmcsr.getD 0) &&& 0x7
    let m :=
      if c = 0x3 then
        { m with pm := fun x => if z ≤ x ∧ x < z + m.spm_pagesize then 0xFF else m.pm x }
      else if c = 0x1 then
        { m with pmp := wr8 (wr8 m.pmp z (m.dm 0)) (z + 1) (m.dm 1) }
      else if c = 0x5 then
        { m with pm := fun x => if z ≤ x ∧ x < z + m.spm_pagesize then m.pmp (x - z) % 256
                                else m.pm x }
      else m
    let m := { m with pc := m.pc + 2 }
    if inst = 0x95F8 then
      let z := z + 2
      let m := match m.rampz with
        | some a => { m with dm := wr8 m.dm a ((z >>> 16) &&& 0xFF) }
        | none => m
      let m := { m with dm := wr8 m.dm REG_ZH ((z >>> 8) &&& 0xFF) }
      { m with dm := wr8 m.dm REG_ZL (z &&& 0xFF) }
    else m
  else
    { m with state := AVR_MSIM_TESTFAIL }

/-- decode_inst (avr_decoder.c lines 234-715): the layered dispatch on
the instruction word, keyed on the high nibble, then on finer masks.
Returns none where the source returns -1 (unknown instruction); every
returning -1 path performs no state change, which is visible here in
that none carries no state. -/
def decode_inst (m : Mcu) (inst : Nat) : Option Mcu :=
  match inst &&& 0xF000 with
  | 0x0000 =>
    if inst &&& 0xFF00 = 0x0200 then some (exec_muls m inst)
    else if inst &&& 0xFF88 = 0x0300 then some (exec_mulsu m inst)
    else if inst &&& 0xFF88 = 0x308 then some (exec_fmul m inst)
    else if inst &&& 0xFF88 = 0x380 then some (exec_fmuls m inst)
    else if inst &&& 0xFF88 = 0x388 then some (exec_fmulsu m inst)
    else if inst = 0x0000 then some { m with pc := m.pc + 2 }
    else if inst &&& 0xFC00 = 0x0400 then some (exec_cpc m inst)
    else if inst &&& 0xFC00 = 0x0800 then some (exec_sbc m inst)
    else if inst &&& 0xFC00 = 0x0C00 then some (exec_add_lsl m inst)
    else if inst &&& 0xFF00 = 0x0100 then some (exec_movw m inst)
    else none
  | 0x1000 =>
    if inst &&& 0xFC00 = 0x1000 then some (exec_cpse m inst)
    else if inst &&& 0xFC00 = 0x1400 then some (exec_cp m inst)
    else if inst &&& 0xFC00 = 0x1800 then some (exec_sub m inst)
    else if inst &&& 0xFC00 = 0x1C00 then some (exec_adc_rol m inst)
    else none
  | 0x2000 =>
    if inst &&& 0xFC00 = 0x2000 then some (exec_and m inst)
    else if inst &&& 0xFC00 = 0x2400 then some (exec_eor_clr m inst)
    else if inst &&& 0xFC00 = 0x2800 then some (exec_or m inst)
    else if inst &&& 0xFC00 = 0x2C00 then some (exec_mov m inst)
    else none
  | 0x3000 => some (exec_cpi m inst)
  | 0x4000 => some (exec_sbci m inst)
  | 0x5000 => some (exec_subi m inst)
  | 0x6000 => some (exec_ori_sbr m inst)
  | 0x7000 => some (exec_andi_cbr m inst)
  | 0x8000 =>
    if inst &&& 0xD208 = 0x8000 then some (exec_ld_zdisp m inst)
    else if inst &&& 0xD208 = 0x8008 then some (exec_ld_ydisp m inst)
    else if inst &&& 0xD208 = 0x8200 then some (exec_st_zdisp m inst)
    else if inst &&& 0xD208 = 0x8208 then some (exec_st_ydisp m inst)
    else if inst &&& 0xFE0F = 0x8000 then some (exec_ld_z m inst)
    else if inst &&& 0xFE0F = 0x8008 then some (exec_ld_y m inst)
    else if inst &&& 0xFE0F = 0x8200 then some (exec_st_z m inst)
    else if inst &&& 0xFE0F = 0x8208 then some (exec_st_y m inst)
    else none
  | 0x9000 =>
    if inst &&& 0xFF00 = 0x9600 then some (exec_adiw m inst)
    else if inst &&& 0xFF8F = 0x9488 then some (exec_bclr m inst)
    else if inst &&& 0xFF8F = 0x9408 then some (exec_bset m inst)
    else if inst &&& 0xFE0E = 0x940C then some (exec_jmp m inst)
    else if inst &&& 0xFE0E = 0x940E then some (exec_call m inst)
    else if inst &&& 0xFC00 = 0x9C00 then some (exec_mul m inst)
    else if inst = 0x9408 then some (exec_sec m)
    else if inst = 0x9409 then some (exec_ijmp m)
    else if inst = 0x9418 then some (exec_sez m)
    else if inst = 0x9419 then some (exec_eijmp m)
    else if inst = 0x9428 then some (exec_sen m)
    else if inst = 0x9438 then some (exec_sev m)
    else if inst = 0x9448 then some (exec_ses m)
    else if inst = 0x9458 then some (exec_seh m)
    else if inst = 0x9468 then some (exec_set m)
    else if inst = 0x9478 then some (exec_sei m)
    else if inst = 0x9488 then some (exec_clc m)
    else if inst = 0x9498 then some (exec_clz m)
    else if inst = 0x94A8 then some (exec_cln m)
    else if inst = 0x94B8 then some (exec_clv m)
    else if inst = 0x94C8 then some (exec_cls m)
    else if inst = 0x94D8 then some (exec_clh m)
    else if inst = 0x94E8 then some (exec_clt m)
    else if inst = 0x94F8 then some (exec_cli m)
    else if inst = 0x9508 then some (exec_ret m)
    else if inst = 0x9509 then some (exec_icall m)
    else if inst = 0x9518 then some (exec_reti m)
    else if inst = 0x9519 then some (exec_eicall m)
    else if inst = 0x9598 then some (exec_break m)
    else if inst = 0x95C8 then some (exec_lpm m inst)
    else if inst = 0x95D8 then some (exec_elpm m inst)
    else if inst = 0x95E8 ∨ inst = 0x95F8 then some (exec_spm m inst)
    else if inst &&& 0xFE0F = 0x9000 then some (exec_lds m inst)
    else if inst &&& 0xFE0F = 0x9001 ∨ inst &&& 0xFE0F = 0x9002 then some (exec_ld_z m inst)
    else if inst &&& 0xFE0F = 0x9004 ∨ inst &&& 0xFE0F = 0x9005 then some (exec_lpm m inst)
    else if inst &&& 0xFE0F = 0x9006 ∨ inst &&& 0xFE0F = 0x9007 then some (exec_elpm m inst)
    else if inst &&& 0xFE0F = 0x9009 ∨ inst &&& 0xFE0F = 0x900A then some (exec_ld_y m inst)
    else if inst &&& 0xFE0F = 0x900C ∨ inst &&& 0xFE0F = 0x900D ∨
            inst &&& 0xFE0F = 0x900E then some (exec_ld_x m inst)
    else if inst &&& 0xFE0F = 0x900F then some (exec_push_pop m inst false)
    else if inst &&& 0xFE0F = 0x9200 then some (exec_sts m inst)
    else if inst &&& 0xFE0F = 0x9201 ∨ inst &&& 0xFE0F = 0x9202 then some (exec_st_z m inst)
    else if inst &&& 0xFE0F = 0x9204 then some (exec_xch m inst)
    else if inst &&& 0xFE0F = 0x9205 then some (exec_las m inst)
    else if inst &&& 0xFE0F = 0x9206 then some (exec_lac m inst)
    else if inst &&& 0xFE0F = 0x9207 then some (exec_lat m inst)
    else if inst &&& 0xFE0F = 0x9209 ∨ inst &&& 0xFE0F = 0x920A then some (exec_st_y m inst)
    else if inst &&& 0xFE0F = 0x920C ∨ inst &&& 0xFE0F = 0x920D ∨
            inst &&& 0xFE0F = 0x920E then some (exec_st_x m inst)
    else if inst &&& 0xFE0F = 0x920F then some (exec_push_pop m inst true)
    else if inst &&& 0xFE0F = 0x9400 then some (exec_com m inst)
    else if inst &&& 0xFE0F = 0x9401 then some (exec_neg m inst)
    else if inst &&& 0xFE0F = 0x9402 then some (exec_swap m inst)
    else if inst &&& 0xFE0F = 0x9403 then some (exec_inc m inst)
    else if inst &&& 0xFE0F = 0x9405 then some (exec_asr m inst)
    else if inst &&& 0xFE0F = 0x9406 then some (exec_lsr m inst)
    else if inst &&& 0xFE0F = 0x9407 then some (exec_ror m inst)
    else if inst &&& 0xFE0F = 0x940A then some (exec_dec m inst)
    else if inst &&& 0xFF00 = 0x9700 then some (exec_sbiw m inst)
    else if inst &&& 0xFF00 = 0x9800 then some (exec_sbi_cbi m inst false)
    else if inst &&& 0xFF00 = 0x9900 then some (exec_sbis_sbic m inst false)
    else if inst &&& 0xFF00 = 0x9A00 then some (exec_sbi_cbi m inst true)
    else if inst &&& 0xFF00 = 0x9B00 then some (exec_sbis_sbic m inst true)
    else none
  | 0xA000 =>
    if inst &&& 0xF800 = 0xA000 then some (exec_lds16 m inst)
    else if inst &&& 0xD208 = 0x8000 then some (exec_ld_zdisp m inst)
    else if inst &&& 0xD208 = 0x8008 then some (exec_ld_ydisp m inst)
    else if inst &&& 0xD208 = 0x8200 then some (exec_st_zdisp m inst)
    else if inst &&& 0xD208 = 0x8208 then some (exec_st_ydisp m inst)
    else none
  | 0xB000 =>
    some (exec_in_out m inst ((inst &&& 0x01F0) >>> 4)
      ((inst &&& 0x0F) ||| ((inst &&& 0x0600) >>> 5)))
  | 0xC000 => some (exec_rjmp m inst)
  | 0xD000 => some (exec_rcall m inst)
  | 0xE000 =>
    if inst &&& 0xFF0F = 0xEF0F then some (exec_ser m inst)
    else some (exec_ldi m inst)
  | 0xF000 =>
    if inst &&& 0xFE08 = 0xF800 then some (exec_bld m inst)
    else if inst &&& 0xFE08 = 0xFA00 then some (exec_bst m inst)
    else if inst &&& 0xFE08 = 0xFC00 then some (exec_sbrc m inst)
    else if inst &&& 0xFE08 = 0xFE00 then some (exec_sbrs m inst)
    else if inst &&& 0xFC00 = 0xF400 then some (exec_brbc m inst)
    else if inst &&& 0xFC00 = 0xF000 then some (exec_brbs m inst)
    else if inst &&& 0xFC07 = 0xF000 then some (exec_brcs_brlo m inst)
    else if inst &&& 0xFC07 = 0xF001 then some (exec_breq m inst)
    else if inst &&& 0xFC07 = 0xF002 then some (exec_brmi m inst)
    else if inst &&& 0xFC07 = 0xF003 then some (exec_brvs m inst)
    else if inst &&& 0xFC07 = 0xF004 then some (exec_brlt m inst)
    else if inst &&& 0xFC07 = 0xF005 then some (exec_brhs m inst)
    else if inst &&& 0xFC07 = 0xF006 then some (exec_brts m inst)
    else if inst &&& 0xFC07 = 0xF007 then some (exec_brie m inst)
    else if inst &&& 0xFC07 = 0xF400 then some (exec_brcc_brsh m inst)
    else if inst &&& 0xFC07 = 0xF401 then some (exec_brne m inst)
    else if inst &&& 0xFC07 = 0xF402 then some (exec_brpl m inst)
    else if inst &&& 0xFC07 = 0xF403 then some (exec_brvc m inst)
    else if inst &&& 0xFC07 = 0xF404 then some (exec_brge m inst)
    else if inst &&& 0xFC07 = 0xF405 then some (exec_brhc m inst)
    else if inst &&& 0xFC07 = 0xF406 then some (exec_brtc m inst)
    else if inst &&& 0xFC07 = 0xF407 then some (exec_brid m inst)
    else none
  | _ => none

/-- The instruction word fetched by MSIM_AVR_Step: two little-endian
bytes read from program memory, or from the match-point memory when the
one-shot read_from_mpm flag is armed. -/
def fetchWord (m : Mcu) : Nat :=
  if !m.read_from_mpm then
    pm8 m m.pc ||| (pm8 m (m.pc + 1) <<< 8)
  else
    mpm8 m m.pc ||| (mpm8 m (m.pc + 1) <<< 8)

/-- The state after MSIM_AVR_Step consumed the one-shot
read_from_mpm flag (the only mutation the fetch itself performs). -/
def consumeFetch (m : Mcu) : Mcu :=
  if m.read_from_mpm then { m with read_from_mpm := false } else m

/-- MSIM_AVR_Step (avr_decoder.c lines 198-221): fetch one instruction
word (consuming the one-shot match-point flag if armed), decode and
execute it; returns -1 on an unknown instruction and 0 otherwise,
paired with the machine state after the call. -/
def MSIM_AVR_Step (m : Mcu) : Int × Mcu :=
  let inst := fetchWord m
  let m := consumeFetch m
  match decode_inst m inst with
  | some m2 => (0, m2)
  | none => (-1, m)

/-- Modelled from the spec: data-space address of TCCR0A.  The header
m328p.h defining the register addresses is not under src/, so the
ATmega328P data-space addresses are taken from the device datasheet;
no claim depends on the specific values, only on their distinctness. -/
def TCCR0A : Nat := 0x44

/-- Modelled from the spec: data-space address of TCCR0B (see TCCR0A). -/
def TCCR0B : Nat := 0x45

/-- Modelled from the spec: data-space address of TCNT0 (see TCCR0A). -/
def TCNT0 : Nat := 0x46

/-- Modelled from the spec: data-space address of OCR0A (see TCCR0A). -/
def OCR0A : Nat := 0x47

/-- Modelled from the spec: data-space address of OCR0B (see TCCR0A). -/
def OCR0B : Nat := 0x48

/-- Modelled from the spec: data-space address of TIFR0 (see TCCR0A). -/
def TIFR0 : Nat := 0x35

/-- Modelled from the spec: data-space address of PORTD (see TCCR0A). -/
def PORTD : Nat := 0x2B

/-- Modelled from the spec: data-space address of PIND (see TCCR0A). -/
def PIND : Nat := 0x29

/-- Modelled from the spec: data-space address of DDRB (see TCCR0A). -/
def DDRB : Nat := 0x24

/-- Modelled from the spec: bit number of the T0 external clock pin
PD4 (see TCCR0A). -/
def PD4 : Nat := 4

/-- Modelled from the spec: bit number of pin PD5 (see TCCR0A). -/
def PD5 : Nat := 5

/-- Modelled from the spec: bit number of pin PD6 (see TCCR0A). -/
def PD6 : Nat := 6

/-- Modelled from the spec: TOV0 bit number in TIFR0 (see TCCR0A). -/
def TOV0 : Nat := 0

/-- Modelled from the spec: OCF0A bit number in TIFR0 (see TCCR0A). -/
def OCF0A : Nat := 1

/-- Modelled from the spec: WGM00 bit number in TCCR0A (see TCCR0A). -/
def WGM00 : Nat := 0

/-- Modelled from the spec: WGM01 bit number in TCCR0A (see TCCR0A). -/
def WGM01 : Nat := 1

/-- Modelled from the spec: WGM02 bit number in TCCR0B (see TCCR0A). -/
def WGM02 : Nat := 3

/-- Modelled from the spec: COM0A0 bit number in TCCR0A (see TCCR0A). -/
def COM0A0 : Nat := 6

/-- Modelled from the spec: COM0A1 bit number in TCCR0A (see TCCR0A). -/
def COM0A1 : Nat := 7

/-- Modelled from the spec: COM0B0 bit number in TCCR0A (see TCCR0A). -/
def COM0B0 : Nat := 4

/-- Modelled from the spec: COM0B1 bit number in TCCR0A (see TCCR0A). -/
def COM0B1 : Nat := 5

/-- A_CHAN constant of avr_m328p.c. -/
def A_CHAN : Nat := 79

/-- B_CHAN constant of avr_m328p.c. -/
def B_CHAN : Nat := 80

/-- NOT_CONNECTED constant of avr_m328p.c. -/
def NOT_CONNECTED : Nat := 0xFF

/-- The IS_RISE macro of avr_m328p.c (line 43): 1 iff the bit is clear
in the remembered value and set in the current one. -/
def IS_RISE (init val bit : Nat) : Nat :=
  (if (init >>> bit) &&& 1 = 0 then 1 else 0) &&& ((val >>> bit) &&& 1)

/-- The IS_FALL macro of avr_m328p.c (line 44). -/
def IS_FALL (init val bit : Nat) : Nat :=
  ((init >>> bit) &&& 1) &&& (if (val >>> bit) &&& 1 = 0 then 1 else 0)

/-- The program-scope mutable storage of avr_m328p.c that the Timer0
tick reads and writes: the function-local statics tc0_presc, tc0_ticks
and old_wgm0 of tick_timer0 (lines 99-101), the file-scope statics
init_portd and init_pind (lines 58-59) and the file-scope globals
ocr0a_buf, ocr0b_buf and missed_cm (lines 65-70).  This storage exists
once per program, not once per MCU instance, so it is threaded
explicitly beside the Mcu state. -/
structure TimerGlobals where
  tc0_presc : Nat
  tc0_ticks : Nat
  old_wgm0 : Nat
  init_portd : Nat
  init_pind : Nat
  ocr0a_buf : Nat
  ocr0b_buf : Nat
  missed_cm : Nat
deriving DecidableEq, Repr

/-- timer1_oc1_nonpwm (avr_m328p.c lines 256-305): output-compare pin
action, gated on the DDRB bit of the pin.  The case labels of the final
switch are syntactically damaged in the source; they are rendered by
the comments beside them: com=1 toggles the pin, com=2 clears it,
com=3 sets it, com=0 and the default do nothing.  No theorem below
exercises this function. -/
def timer1_oc1_nonpwm (m : Mcu) (com0a com0b chan : Nat) : Mcu :=
  let pin := if chan = A_CHAN then PD6 else if chan = B_CHAN then PD5 else PD6
  let com := if chan = A_CHAN then com0a
             else if chan = B_CHAN then com0b
             else NOT_CONNECTED
  let com := if com ≠ NOT_CONNECTED ∧ (dm8 m DDRB >>> pin) &&& 1 = 0 then NOT_CONNECTED
             else com
  if com ≠ NOT_CONNECTED then
    if com = 1 then
      if (dm8 m PORTD >>> pin) &&& 1 = 1 then
        { m with dm := wr8 m.dm PORTD (dm8 m PORTD &&& (0xFF ^^^ (1 <<< pin))) }
      else
        { m with dm := wr8 m.dm PORTD (dm8 m PORTD ||| (1 <<< pin)) }
    else if com = 2 then
      { m with dm := wr8 m.dm PORTD (dm8 m PORTD &&& (0xFF ^^^ (1 <<< pin))) }
    else if com = 3 then
      { m with dm := wr8 m.dm PORTD (dm8 m PORTD ||| (1 <<< pin)) }
    else m
  else m

/-- timer0_normal (avr_m328p.c lines 217-254): Normal-mode counting of
Timer0; returns the updated ticks accumulator beside the machine.  The
source text of this function is syntactically damaged (the ticks
parameter is declared as a pointer but handed the accumulator by value
at the call site, and the overflow-flag store DM(1TOV0) does not
parse); the evident intent per the adjacent comments is rendered, and
the two compare-match stores that do parse are kept literally.  No
theorem below exercises this function. -/
def timer0_normal (m : Mcu) (presc ticks com0a com0b : Nat) : Nat × Mcu :=
  if ticks < presc - 1 then
    (ticks + 1, m)
  else if presc - 1 < ticks then
    (ticks, m)
  else if dm8 m TCNT0 = 0xFF then
    let m := { m with dm := wr8 m.dm TCNT0 0 }
    (0, { m with dm := wr8 m.dm TIFR0 (1 <<< TOV0) })
  else if dm8 m TCNT0 = dm8 m OCR0A then
    let m := { m with dm := wr8 m.dm TIFR0 (dm8 m OCF0A) }
    let m := timer1_oc1_nonpwm m com0a com0b A_CHAN
    (0, { m with dm := wr8 m.dm TCNT0 (dm8 m TCNT0 + 1) })
  else if dm8 m TCNT0 = dm8 m OCR0B then
    let m := { m with dm := wr8 m.dm TIFR0 (dm8 m OCR0B) }
    let m := timer1_oc1_nonpwm m com0a com0b B_CHAN
    (0, { m with dm := wr8 m.dm TCNT0 (dm8 m TCNT0 + 1) })
  else
    (0, { m with dm := wr8 m.dm TCNT0 (dm8 m TCNT0 + 1) })

/-- tick_timer0 (avr_m328p.c lines 95-215): one cycle of the 8-bit
Timer/Counter0.  The clock-select bits choose an internal prescaler, an
external T0-pin edge, or stopped mode.  In the external-clock cases the
current PORTD / PIND sample is compared against the program-scope
statics init_portd / init_pind, which no code of the file ever updates.
The prescaler statics tc0_presc / tc0_ticks and the missed-compare
latch missed_cm live in the shared TimerGlobals. -/
def tick_timer0 (g : TimerGlobals) (m : Mcu) : TimerGlobals × Mcu :=
  let cs0 := dm8 m TCCR0B &&& 0x7
  let wgm0 := ((dm8 m TCCR0A >>> WGM00) &&& 1) ||| ((dm8 m TCCR0A >>> WGM01) &&& 2) |||
              ((dm8 m TCCR0B >>> WGM02) &&& 8)
  let com0a := ((dm8 m TCCR0A >>> COM0A0) &&& 6) ||| ((dm8 m TCCR0A >>> COM0A1) &&& 7)
  let com0b := ((dm8 m TCCR0A >>> COM0B0) &&& 4) ||| ((dm8 m TCCR0A >>> COM0B1) &&& 5)
  if cs0 = 0x6 then
    let m :=
      if IS_FALL g.init_portd (dm8 m PORTD) PD4 ≠ 0 ∨
         IS_FALL g.init_pind (dm8 m PIND) PD4 ≠ 0 then
        if dm8 m TCNT0 = 0xFF then
          let m := { m with dm := wr8 m.dm TCNT0 0 }
          { m with dm := wr8 m.dm TIFR0 (dm8 m TIFR0 ||| (1 <<< TOV0)) }
        else
          { m with dm := wr8 m.dm TCNT0 (dm8 m TCNT0 + 1) }
      else m
    ({ g with tc0_presc := 0, tc0_ticks := 0 }, m)
  else if cs0 = 0x7 then
    let m :=
      if IS_RISE g.init_portd (dm8 m PORTD) PD4 ≠ 0 ∨
         IS_RISE g.init_pind (dm8 m PIND) PD4 ≠ 0 then
        if dm8 m TCNT0 = 0xFF then
          let m := { m with dm := wr8 m.dm TCNT0 0 }
          { m with dm := wr8 m.dm TIFR0 (dm8 m TIFR0 ||| (1 <<< TOV0)) }
        else
          { m with dm := wr8 m.dm TCNT0 (dm8 m TCNT0 + 1) }
      else m
    ({ g with tc0_presc := 0, tc0_ticks := 0 }, m)
  else if cs0 = 0x1 ∨ cs0 = 0x2 ∨ cs0 = 0x3 ∨ cs0 = 0x4 ∨ cs0 = 0x5 then
    let presc : Nat :=
      if cs0 = 0x1 then 1
      else if cs0 = 0x2 then 8
      else if cs0 = 0x3 then 64
      else if cs0 = 0x4 then 256
      else 1024
    let g :=
      if presc ≠ g.tc0_presc then
        let g :=
          if g.tc0_presc = 0 ∧ dm8 m OCR0A < dm8 m TCNT0 then { g with missed_cm := 1 }
          else g
        { g with tc0_presc := presc, tc0_ticks := 0 }
      else g
    if g.tc0_ticks = g.tc0_presc - 1 then
      let m :=
        if dm8 m TCNT0 = 0xFF then
          let m := { m with dm := wr8 m.dm TCNT0 0 }
          { m with dm := wr8 m.dm TIFR0 (dm8 m TIFR0 ||| (1 <<< TOV0)) }
        else
          { m with dm := wr8 m.dm TCNT0 (dm8 m TCNT0 + 1) }
      ({ g with tc0_ticks := 0 }, m)
    else
      match wgm0 with
      | 0 =>
        let (t, m) := timer0_normal m g.tc0_presc g.tc0_ticks com0a com0b
        ({ g with tc0_ticks := t }, m)
      | 1 => (g, m)
      | 2 => (g, m)
      | 3 => (g, m)
      | _ =>
        let g := if wgm0 ≠ g.old_wgm0 then { g with old_wgm0 := wgm0 } else g
        ({ g with tc0_presc := 0, tc0_ticks := 0 }, m)
  else
    ({ g with tc0_presc := 0, tc0_ticks := 0 }, m)

/-- A concrete base machine used by the closed evaluations below: a
non-xmega device with a 16-bit PC, SREG at data address 0x5F, SP pair
at 0x5E:0x5D, no EIND / RAMPZ / SPMCSR, and all memories zero. -/
def baseMcu : Mcu where
  pc := 0
  pc_bits := 16
  xmega := false
  reduced_core := false
  ramstart := 0x100
  ramend := 0x8FF
  dm := fun _ => 0
  pm := fun _ => 0
  pmp := fun _ => 0
  mpm := fun _ => 0
  sregAddr := 0x5F
  sphAddr := 0x5E
  splAddr := 0x5D
  sfr_off := 0x20
  eind := none
  rampz := none
  spmcsr := none
  spm_pagesize := 64
  in_mcinst := false
  ic_left := 0
  read_from_mpm := false
  state := AVR_RUNNING
  exec_main := false

/-- Machine with R25:R24 = 0xFFFF, ready for ADIW R24,1 (word 0x9601). -/
def mAdiw : Mcu :=
  { baseMcu with dm := fun a => if a = 24 then 0xFF else if a = 25 then 0xFF else 0 }

/-- The machine after the two decoder calls that execute ADIW R24,1
(the first call latches the multi-cycle bookkeeping, the second call
completes the instruction). -/
def mAdiw2 : Mcu := exec_adiw (exec_adiw mAdiw 0x9601) 0x9601

/-- Machine with R16 = 85 and R17 = 3, ready for FMUL R16,R17
(word 0x0309); the product is 255 and the left-shifted result 0x1FE. -/
def mFmul : Mcu :=
  { baseMcu with dm := fun a => if a = 16 then 85 else if a = 17 then 3 else 0 }

/-- The machine after the two decoder calls that execute FMUL R16,R17. -/
def mFmul2 : Mcu := exec_fmul (exec_fmul mFmul 0x0309) 0x0309

/-- Machine with bit 0 of R0 set and the 32-bit CALL opcode word 0x940E
stored little-endian at PC+2..PC+3, ready for SBRS R0,0 (word 0xFE00):
the skip condition holds and the skipped instruction is 32-bit wide. -/
def mSbrs : Mcu :=
  { baseMcu with
    dm := fun a => if a = 0 then 1 else 0,
    pm := fun a => if a = 2 then 0x0E else if a = 3 then 0x94 else 0 }

/-- The machine after the two decoder calls that execute SBRS R0,0. -/
def mSbrs2 : Mcu := exec_sbrs (exec_sbrs mSbrs 0xFE00) 0xFE00

/-- Machine with R0 = 0x00, R1 = 0xFF and SREG = 0x03 (carry and zero
flags set), ready for CPC R0,R1 or SBC R0,R1 (word 0x0401): the 8-bit
result of the subtraction 0x00 - 0xFF - 1 is 0x00. -/
def mCpc : Mcu :=
  { baseMcu with dm := fun a => if a = 1 then 0xFF else if a = 0x5F then 0x03 else 0 }

/-- The machine after CPC R0,R1 on mCpc. -/
def mCpcAfter : Mcu := exec_cpc mCpc 0x0401

/-- The machine after SBC R0,R1 on mCpc (same operands as mCpcAfter). -/
def mSbcAfter : Mcu := exec_sbc mCpc 0x0401

/-- The program-scope timer storage as it is at program start: every
static is zero-initialised. -/
def tmrG0 : TimerGlobals := ⟨0, 0, 0, 0, 0, 0, 0, 0⟩

/-- Machine with Timer0 clocked from the external T0 pin on a rising
edge (TCCR0B = 0x07), PORTD bit 4 driven high and TCNT0 = 5. -/
def mT0 : Mcu :=
  { baseMcu with
    dm := fun a =>
      if a = TCCR0B then 0x07 else if a = PORTD then 0x10
      else if a = TCNT0 then 5 else 0 }

/-- First external-clock tick of mT0 from the program-start statics. -/
def mT0tick1 : TimerGlobals × Mcu := tick_timer0 tmrG0 mT0

/-- Second external-clock tick, with the PORTD level unchanged. -/
def mT0tick2 : TimerGlobals × Mcu := tick_timer0 mT0tick1.1 mT0tick1.2

/-- Simulator instance A for the interference scenario: Timer0 on the
internal clock with no prescaling (TCCR0B = 0x01), TCNT0 = 0 and
OCR0A = 5. -/
def mInstA : Mcu :=
  { baseMcu with
    dm := fun a => if a = TCCR0B then 0x01 else if a = OCR0A then 5 else 0 }

/-- Simulator instance B for the interference scenario: Timer0 on the
internal clock with no prescaling, TCNT0 = 10 above OCR0A = 5, so a
tick from pristine statics must latch the missed-compare flag. -/
def mInstB : Mcu :=
  { baseMcu with
    dm := fun a =>
      if a = TCCR0B then 0x01 else if a = OCR0A then 5
      else if a = TCNT0 then 10 else 0 }

/-- Machine whose program memory holds the unknown instruction word
0x0001 at PC = 0. -/
def mUnk : Mcu := { baseMcu with pm := fun a => if a = 0 then 1 else 0 }

/-- Machine inside a multi-cycle instruction with three cycles left,
used to instantiate the frame property of SKIP_CYCLES. -/
def mSkip : Mcu := { baseMcu with in_mcinst := true, ic_left := 3 }

/-- Machine with the register pair R7:R6 holding 0x34:0x12, used to
instantiate the MOVW round-trip property. -/
def mMovw : Mcu :=
  { baseMcu with dm := fun a => if a = 6 then 0x12 else if a = 7 then 0x34 else 0 }

/-
  Theorems settling the claims.
-/

/-- Claim C3: for every state and every multi-cycle instruction driven
by the SKIP_CYCLES bookkeeping (and for CALL, which open-codes it), an
intermediate decoder call returns after changing only in_mcinst and
ic_left - the record-update equalities leave PC, data memory (hence
SREG and the stack pointer, which live in it) and program memory
untouched - and the full effect (the body, exec_call_body for CALL) is
applied exactly once, on the final cycle, with in_mcinst cleared. -/
theorem skip_cycles_intermediate_frame :
    (∀ (m : Mcu) (cond : Bool) (cycl : Nat) (body : Mcu → Mcu),
      (m.in_mcinst = false → cond = true →
        SKIP_CYCLES m cond cycl body = { m with in_mcinst := true, ic_left := cycl })
      ∧ (m.in_mcinst = true → 2 ≤ m.ic_left →
        SKIP_CYCLES m cond cycl body = { m with ic_left := m.ic_left - 1 })
      ∧ (m.in_mcinst = true → m.ic_left = 1 →
        SKIP_CYCLES m cond cycl body = body { m with in_mcinst := false, ic_left := 0 }))
    ∧ (∀ (m : Mcu) (w : Nat),
      (m.in_mcinst = false →
        exec_call m w = { m with in_mcinst := true, ic_left := if !m.xmega then (if 16 < m.pc_bits then 4 else 3) else (if 16 < m.pc_bits then 3 else 2) })
      ∧ (m.in_mcinst = true → 2 ≤ m.ic_left →
        exec_call m w = { m with ic_left := m.ic_left - 1 })
      ∧ (m.in_mcinst = true → m.ic_left = 1 →
        exec_call m w = exec_call_body { m with in_mcinst := false, ic_left := 0 } w)) := by
  constructor
  · intro m cond cycl body
    refine ⟨?_, ?_, ?_⟩
    · intro h1 h2
      simp [SKIP_CYCLES, h1, h2]
    · intro h1 h2
      have hne : (m.ic_left != 0) = true := by simp; omega
      have hne2 : (m.ic_left - 1 != 0) = true := by simp; omega
      simp [SKIP_CYCLES, h1, hne, hne2]
    · intro h1 h2
      simp [SKIP_CYCLES, h1, h2]
  · intro m w
    refine ⟨?_, ?_, ?_⟩
    · intro h1
      simp [exec_call, h1]
    · intro h1 h2
      have hne : (m.ic_left != 0) = true := by simp; omega
      have hne2 : (m.ic_left - 1 != 0) = true := by simp; omega
      simp [exec_call, h1, hne, hne2]
    · intro h1 h2
      simp [exec_call, h1, h2]

/-- Witness for claim C3: the frame property applied at a concrete
mid-instruction state (three cycles left, then the last CALL cycle). -/
theorem skip_cycles_intermediate_frame_witness :
    SKIP_CYCLES mSkip true 3 id = { mSkip with ic_left := 2 } ∧
    exec_call { mSkip with ic_left := 1 } 0x940E =
      exec_call_body { mSkip with in_mcinst := false, ic_left := 0 } 0x940E := by
  constructor
  · have h := (skip_cycles_intermediate_frame.1 mSkip true 3 id).2.1 rfl (by decide)
    simpa [mSkip] using h
  · exact (skip_cycles_intermediate_frame.2 { mSkip with ic_left := 1 } 0x940E).2.2 rfl rfl

/-- Claim C4: EICALL or EIJMP on a device whose EIND pointer is NULL,
and ELPM on a device whose RAMPZ pointer is NULL, set the run state to
TESTFAIL and change nothing else - the result is exactly the input
machine with only the state field replaced, so PC, data memory, SREG
and the stack are untouched. -/
theorem eind_rampz_absent_testfail :
    (∀ m : Mcu, m.eind = none → exec_eicall m = { m with state := AVR_MSIM_TESTFAIL })
    ∧ (∀ m : Mcu, m.eind = none → exec_eijmp m = { m with state := AVR_MSIM_TESTFAIL })
    ∧ (∀ (m : Mcu) (inst : Nat), m.rampz = none →
        exec_elpm m inst = { m with state := AVR_MSIM_TESTFAIL }) := by
  refine ⟨?_, ?_, ?_⟩
  · intro m h; simp [exec_eicall, h]
  · intro m h; simp [exec_eijmp, h]
  · intro m inst h; simp [exec_elpm, h]

/-- Witness for claim C4: the TESTFAIL transitions evaluated on the
concrete device without EIND and RAMPZ. -/
theorem eind_rampz_absent_testfail_witness :
    exec_eicall baseMcu = { baseMcu with state := AVR_MSIM_TESTFAIL } ∧
    exec_eijmp baseMcu = { baseMcu with state := AVR_MSIM_TESTFAIL } ∧
    exec_elpm baseMcu 0x95D8 = { baseMcu with state := AVR_MSIM_TESTFAIL } :=
  ⟨eind_rampz_absent_testfail.1 baseMcu rfl,
   eind_rampz_absent_testfail.2.1 baseMcu rfl,
   eind_rampz_absent_testfail.2.2 baseMcu 0x95D8 rfl⟩

/-- Claim C1 (code bug): SBRS with a satisfied skip condition over a
following 32-bit CALL word advances PC by 4, not 6.  The full 16-bit
little-endian word at PC+2..PC+3 is 0x940E, which the 32-bit predicate
MSIM_AVR_Is32 accepts, yet the completing cycle of exec_sbrs advances
PC by only 4, because the source hands MSIM_AVR_Is32 the single byte
pm[pc+2] instead of the assembled word. -/
theorem sbrs_is32_skip_bug :
    dm8 mSbrs 0 &&& 1 = 1 ∧
    MSIM_AVR_Is32 (pm8 mSbrs (mSbrs.pc + 2) ||| (pm8 mSbrs (mSbrs.pc + 3) <<< 8)) = true ∧
    mSbrs2.in_mcinst = false ∧
    mSbrs2.pc = mSbrs.pc + 4 := by decide

/-- Claim C2 (code bug): ADIW R24,1 on R25:R24 = 0xFFFF stores 0x0000
and sets C = 1, but leaves Z = 0 although the stored 16-bit result is
zero, because exec_adiw computes Z from the unreduced unsigned-int sum
0x10000. -/
theorem adiw_overflow_zero_flag_bug :
    dm8 mAdiw 24 = 0xFF ∧ dm8 mAdiw 25 = 0xFF ∧
    dm8 mAdiw2 24 = 0x00 ∧ dm8 mAdiw2 25 = 0x00 ∧
    MSIM_AVR_ReadSREGFlag mAdiw2 AVR_SREG_CARRY = 1 ∧
    MSIM_AVR_ReadSREGFlag mAdiw2 AVR_SREG_ZERO = 0 ∧
    mAdiw2.in_mcinst = false := by decide

/-- Claim C5 (code bug): with Rd = 0x00, Rr = 0xFF and carry-in 1 the
8-bit result of the subtraction is 0x00, so Z must retain its previous
value 1; exec_sbc does retain it, but exec_cpc at the same operands
clears Z, because it tests the exact int difference -256 instead of
the byte. -/
theorem cpc_zero_retain_bug :
    MSIM_AVR_ReadSREGFlag mCpc AVR_SREG_ZERO = 1 ∧
    MSIM_AVR_ReadSREGFlag mCpc AVR_SREG_CARRY = 1 ∧
    (dm8 mCpc 0 + 512 - dm8 mCpc 1 - 1) % 256 = 0 ∧
    MSIM_AVR_ReadSREGFlag mCpcAfter AVR_SREG_ZERO = 0 ∧
    dm8 mSbcAfter 0 = 0 ∧
    MSIM_AVR_ReadSREGFlag mSbcAfter AVR_SREG_ZERO = 1 := by decide

/-- Claim C6 (code bug): with Timer0 on the external rising-edge clock
and the T0 pin (PORTD bit 4) held high, TCNT0 increments on every tick
although no new edge arrives: the second tick sees the identical pin
sample yet still counts, because the remembered pin values init_portd
and init_pind are never re-sampled (they keep their program-start value
0). -/
theorem timer0_extclock_level_counts_bug :
    dm8 mT0tick1.2 PORTD = dm8 mT0 PORTD ∧
    dm8 mT0tick1.2 PIND = dm8 mT0 PIND ∧
    mT0tick1.1.init_portd = tmrG0.init_portd ∧
    mT0tick1.1.init_pind = tmrG0.init_pind ∧
    dm8 mT0 TCNT0 = 5 ∧
    dm8 mT0tick1.2 TCNT0 = 6 ∧
    dm8 mT0tick2.2 TCNT0 = 7 := by decide

/-- Claim C7 (code bug): FMUL R16,R17 with 85 * 3 = 255 must store the
left-shifted product 0x01FE into R1:R0, so R0 = 0xFE and R1 = 0x01;
exec_fmul stores R0 = 0x0E because it masks the low byte with 0x0F
instead of 0xFF. -/
theorem fmul_nibble_mask_bug :
    dm8 mFmul 16 * dm8 mFmul 17 = 255 ∧
    ((dm8 mFmul 16 * dm8 mFmul 17) <<< 1) % 256 = 0xFE ∧
    ((dm8 mFmul 16 * dm8 mFmul 17) <<< 1) / 256 % 256 = 0x01 ∧
    dm8 mFmul2 0 = 0x0E ∧
    dm8 mFmul2 1 = 0x01 ∧
    mFmul2.in_mcinst = false := by decide

/-- Claim C8 (code bug): the Timer0 tick is not a function of the
ticked instance alone.  Ticking instance B from the program-start
statics latches the program-scope missed-compare flag (missed_cm = 1),
but if instance A is ticked first through the same program-scope
statics, the very same tick of B leaves missed_cm = 0: interference
flows through the shared tc0_presc / missed_cm storage. -/
theorem timer0_shared_statics_interference :
    (tick_timer0 tmrG0 mInstB).1.missed_cm = 1 ∧
    (tick_timer0 (tick_timer0 tmrG0 mInstA).1 mInstB).1.missed_cm = 0 ∧
    dm8 (tick_timer0 tmrG0 mInstB).2 TCNT0 = 11 ∧
    dm8 (tick_timer0 (tick_timer0 tmrG0 mInstA).1 mInstB).2 TCNT0 = 11 := by decide

/-- Claim C9: MOVW Rd,Rr followed by MOVW Rr,Rd is the identity on the
source register pair: the pair Rr+1:Rr ends with its original byte
values, the pair Rd+1:Rd holds the same values, the SREG byte is
untouched by both instructions, and each MOVW advances PC by 2. -/
theorem movw_movw_roundtrip (m : Mcu) (d r : Nat) (hd : d < 16) (hr : r < 16)
    (hs : 32 ≤ m.sregAddr) :
    (exec_movw (exec_movw m (0x0100 ||| (d <<< 4) ||| r)) (0x0100 ||| (r <<< 4) ||| d)).dm (2 * r) = m.dm (2 * r) % 256 ∧
    (exec_movw (exec_movw m (0x0100 ||| (d <<< 4) ||| r)) (0x0100 ||| (r <<< 4) ||| d)).dm (2 * r + 1) = m.dm (2 * r + 1) % 256 ∧
    (exec_movw (exec_movw m (0x0100 ||| (d <<< 4) ||| r)) (0x0100 ||| (r <<< 4) ||| d)).dm (2 * d) = m.dm (2 * r) % 256 ∧
    (exec_movw (exec_movw m (0x0100 ||| (d <<< 4) ||| r)) (0x0100 ||| (r <<< 4) ||| d)).dm (2 * d + 1) = m.dm (2 * r + 1) % 256 ∧
    (exec_movw m (0x0100 ||| (d <<< 4) ||| r)).dm m.sregAddr = m.dm m.sregAddr ∧
    (exec_movw (exec_movw m (0x0100 ||| (d <<< 4) ||| r)) (0x0100 ||| (r <<< 4) ||| d)).dm m.sregAddr = m.dm m.sregAddr ∧
    (exec_movw m (0x0100 ||| (d <<< 4) ||| r)).pc = m.pc + 2 ∧
    (exec_movw (exec_movw m (0x0100 ||| (d <<< 4) ||| r)) (0x0100 ||| (r <<< 4) ||| d)).pc = (exec_movw m (0x0100 ||| (d <<< 4) ||| r)).pc + 2 := by
  have hextr : ∀ a, a < 16 → ∀ b, b < 16 →
      ((0x0100 ||| (a <<< 4) ||| b) &&& 0x0F = b ∧
       ((0x0100 ||| (a <<< 4) ||| b) >>> 4) &&& 0x0F = a) := by decide
  obtain ⟨h1, h2⟩ := hextr d hd r hr
  obtain ⟨h3, h4⟩ := hextr r hr d hd
  have hsh : ∀ a : Nat, a <<< 1 = 2 * a := by
    intro a
    rw [Nat.shiftLeft_eq]
    ring
  simp only [exec_movw, dm8, wr8]
  simp only [h1, h2, h3, h4, hsh]
  refine ⟨?_, ?_, ?_, ?_, ?_, ?_, ?_, ?_⟩ <;>
    first
      | trivial
      | (split_ifs <;> omega)

/-- Witness for claim C9: the round trip evaluated at the concrete pair
choice d = 2, r = 3 on a machine with R7:R6 = 0x34:0x12. -/
theorem movw_movw_roundtrip_witness :
    (exec_movw (exec_movw mMovw (0x0100 ||| (2 <<< 4) ||| 3)) (0x0100 ||| (3 <<< 4) ||| 2)).dm (2 * 3) = mMovw.dm (2 * 3) % 256 ∧
    (exec_movw (exec_movw mMovw (0x0100 ||| (2 <<< 4) ||| 3)) (0x0100 ||| (3 <<< 4) ||| 2)).dm (2 * 3 + 1) = mMovw.dm (2 * 3 + 1) % 256 ∧
    (exec_movw (exec_movw mMovw (0x0100 ||| (2 <<< 4) ||| 3)) (0x0100 ||| (3 <<< 4) ||| 2)).dm (2 * 2) = mMovw.dm (2 * 3) % 256 ∧
    (exec_movw (exec_movw mMovw (0x0100 ||| (2 <<< 4) ||| 3)) (0x0100 ||| (3 <<< 4) ||| 2)).dm (2 * 2 + 1) = mMovw.dm (2 * 3 + 1) % 256 ∧
    (exec_movw mMovw (0x0100 ||| (2 <<< 4) ||| 3)).dm mMovw.sregAddr = mMovw.dm mMovw.sregAddr ∧
    (exec_movw (exec_movw mMovw (0x0100 ||| (2 <<< 4) ||| 3)) (0x0100 ||| (3 <<< 4) ||| 2)).dm mMovw.sregAddr = mMovw.dm mMovw.sregAddr ∧
    (exec_movw mMovw (0x0100 ||| (2 <<< 4) ||| 3)).pc = mMovw.pc + 2 ∧
    (exec_movw (exec_movw mMovw (0x0100 ||| (2 <<< 4) ||| 3)) (0x0100 ||| (3 <<< 4) ||| 2)).pc = (exec_movw mMovw (0x0100 ||| (2 <<< 4) ||| 3)).pc + 2 :=
  movw_movw_roundtrip mMovw 2 3 (by decide) (by decide) (by decide)

/-- Claim C10: when the fetched word matches none of the decoder
patterns (decode_inst returns none), MSIM_AVR_Step returns -1 and the
machine state after the call is exactly the fetch-consumed input: PC,
data memory (hence registers, SREG and SP), program memory, match-point
memory, the multi-cycle bookkeeping and the run state keep their prior
values, and only the one-shot read-from-match-point flag is left
cleared. -/
theorem unknown_instruction_state_unchanged (m : Mcu)
    (h : decode_inst (consumeFetch m) (fetchWord m) = none) :
    (MSIM_AVR_Step m).1 = -1 ∧
    (MSIM_AVR_Step m).2 = consumeFetch m ∧
    (consumeFetch m).pc = m.pc ∧
    (consumeFetch m).dm = m.dm ∧
    (consumeFetch m).pm = m.pm ∧
    (consumeFetch m).mpm = m.mpm ∧
    (consumeFetch m).in_mcinst = m.in_mcinst ∧
    (consumeFetch m).ic_left = m.ic_left ∧
    (consumeFetch m).state = m.state ∧
    (consumeFetch m).read_from_mpm = false := by
  refine ⟨?_, ?_, ?_, ?_, ?_, ?_, ?_, ?_, ?_, ?_⟩ <;>
    first
      | simp [MSIM_AVR_Step, h]
      | (unfold consumeFetch; split <;> simp_all)

/-- Witness for claim C10: the unknown word 0x0001 at PC = 0 makes the
step return -1 with the PC unmoved. -/
theorem unknown_instruction_state_unchanged_witness :
    fetchWord mUnk = 0x0001 ∧
    (MSIM_AVR_Step mUnk).1 = -1 ∧ (MSIM_AVR_Step mUnk).2.pc = mUnk.pc := by
  refine ⟨by decide, (unknown_instruction_state_unchanged mUnk rfl).1, ?_⟩
  have h := unknown_instruction_state_unchanged mUnk rfl
  rw [h.2.1, h.2.2.1]

end MCUSim
